import Mathlib

/-!
Verification of the Telegram sales-bot orchestration subsystem of this
repository: a shallow embedding of `telegram/storage.py` (`BotStorage`),
`telegram/bot.py` (`SalesBot`) and `telegram/erpnext_client.py`
(`ERPNextClient.validate_credentials`), together with theorems settling the
specified properties.

Modelling conventions:
- SQLite tables become Lean lists of row structures; the `group_chat_id
  UNIQUE` constraint of the `sales_managers` table is modelled as an explicit
  check inside `assign_sales_manager` (SQLite raises `IntegrityError` and the
  enclosing connection rolls the transaction back, so a violating call leaves
  the store unchanged).
- `datetime.utcnow()` timestamps are an explicit `now : String` argument.
- The Fernet cipher is modelled as a `Cipher` record: an encrypt and a
  decrypt function together with Fernet's documented round-trip contract.
- HTTP traffic and Telegram transport are oracles: handler functions take the
  outcome of each external call as an explicit argument and record in their
  result which external calls they made and which replies they sent.
- The status literal stored by the code is `"awaiting_api"`; the spec calls
  this state `awaiting_credentials`.
-/

namespace SalesBotModel

/-- Minimal JSON value type, standing for the Python dict/list values that the
code receives from `response.json()` and stores via `json.dumps`. -/
inductive Json where
  | null : Json
  | bool (b : Bool) : Json
  | num (n : Int) : Json
  | str (s : String) : Json
  | arr (items : List Json) : Json
  | obj (fields : List (String × Json)) : Json

/-- Python `payload.get(key)` on a parsed JSON object: `none` when the value
is not a dict or the key is absent (Python would yield `None`). -/
def Json.get (j : Json) (key : String) : Option Json :=
  match j with
  | .obj fields => (fields.find? (fun kv => kv.fst == key)).map (fun kv => kv.snd)
  | _ => none

/-- Python truthiness of a JSON value (`None`, `False`, `0`, `""`, `[]` and
an empty dict are falsy). -/
def Json.truthy : Json → Bool
  | .null => false
  | .bool b => b
  | .num n => n != 0
  | .str s => s != ""
  | .arr items => !items.isEmpty
  | .obj fields => !fields.isEmpty

/-- Symmetric cipher used for the credential columns. The code instantiates
`cryptography.fernet.Fernet`; the model keeps the interface
(`BotStorage._encrypt` / `BotStorage._decrypt`) and Fernet's documented
contract that decryption inverts encryption. -/
structure Cipher where
  enc : String → String
  dec : String → String
  dec_enc : ∀ s : String, dec (enc s) = s
  enc_ne : ∀ s : String, enc s ≠ ""

/-- Concrete executable cipher used for witnesses: prepend a marker
character on encryption, drop it on decryption. -/
def tagCipher : Cipher where
  enc s := String.mk ('#' :: s.data)
  dec s := String.mk (s.data.drop 1)
  dec_enc s := by cases s; rfl
  enc_ne s := by
    intro h
    have h2 := congrArg String.data h
    simp at h2

/-- Row of the `sales_master_managers` table. -/
structure MasterManagerRow where
  telegram_id : Int
  full_name : Option String
  username : Option String
  added_by : Option Int
  created_at : String
deriving DecidableEq, Repr

/-- Row of the `groups` table. -/
structure GroupRow where
  chat_id : Int
  title : Option String
  sales_master_manager_id : Option Int
  sales_manager_id : Option Int
  created_at : String
  updated_at : Option String
deriving DecidableEq, Repr

/-- Row of the `group_members` table. -/
structure GroupMemberRow where
  chat_id : Int
  telegram_id : Int
  username : Option String
  full_name : Option String
  first_seen : String
  last_seen : String
  last_message : Option String
deriving DecidableEq, Repr

/-- Row of the `sales_managers` table. -/
structure SalesManagerRow where
  telegram_id : Int
  group_chat_id : Option Int
  username : Option String
  full_name : Option String
  status : String
  encrypted_api_key : Option String
  encrypted_api_secret : Option String
  created_at : String
  updated_at : String
deriving DecidableEq, Repr

/-- Structured form of the JSON payload written by `log_order_request`
(the code serialises this dict with `json.dumps`). -/
structure OrderPayload where
  lead : Json
  phone : Option String
  notes : Option String
  quantity : Option String
  unit : Option String
  attachment : Option Json

/-- Row of the `order_requests` table; `id` comes from the AUTOINCREMENT
primary key, modelled by the store's `next_order_id` counter. -/
structure OrderRequestRow where
  id : Int
  chat_id : Int
  requester_id : Int
  payload : OrderPayload
  sales_manager_id : Option Int
  status : String
  created_at : String
  updated_at : String

/-- The persistent state of `BotStorage`: one list per SQLite table. -/
structure Store where
  master_managers : List MasterManagerRow
  groups : List GroupRow
  group_members : List GroupMemberRow
  sales_managers : List SalesManagerRow
  order_requests : List OrderRequestRow
  next_order_id : Int

/-- Freshly initialised storage (`_initialise_schema` creates empty tables;
SQLite AUTOINCREMENT starts row ids at 1). -/
def emptyStore : Store :=
  { master_managers := [],
    groups := [],
    group_members := [],
    sales_managers := [],
    order_requests := [],
    next_order_id := 1 }

/-- Primary-key lookup in `sales_master_managers` (`SELECT ... WHERE
telegram_id = ?`). -/
def mmFind (st : Store) (telegram_id : Int) : Option MasterManagerRow :=
  st.master_managers.find? (fun r => r.telegram_id == telegram_id)

/-- Primary-key lookup in `groups`. -/
def groupFind (st : Store) (chat_id : Int) : Option GroupRow :=
  st.groups.find? (fun g => g.chat_id == chat_id)

/-- Primary-key lookup in `sales_managers`; this is
`BotStorage.get_sales_manager`. -/
def get_sales_manager (st : Store) (telegram_id : Int) : Option SalesManagerRow :=
  st.sales_managers.find? (fun r => r.telegram_id == telegram_id)

/-- `BotStorage.add_master_manager`: update name/username in place when the
id exists (returning `false`), otherwise insert a fresh row (returning
`true`). -/
def add_master_manager (st : Store) (telegram_id : Int)
    (full_name username : Option String) (added_by : Option Int)
    (now : String) : Store × Bool :=
  match mmFind st telegram_id with
  | some _ =>
      ({ st with master_managers := st.master_managers.map (fun r =>
          if r.telegram_id == telegram_id then
            { r with full_name := full_name, username := username }
          else r) }, false)
  | none =>
      ({ st with master_managers :=
          st.master_managers ++
            [{ telegram_id := telegram_id, full_name := full_name,
               username := username, added_by := added_by, created_at := now }] },
       true)

/-- `BotStorage.remove_master_manager`: delete the row and null every group
binding that pointed at it. -/
def remove_master_manager (st : Store) (telegram_id : Int) : Store :=
  { st with
    master_managers := st.master_managers.filter (fun r => r.telegram_id != telegram_id),
    groups := st.groups.map (fun g =>
      if g.sales_master_manager_id == some telegram_id then
        { g with sales_master_manager_id := none }
      else g) }

/-- `BotStorage.is_master_manager`. -/
def is_master_manager (st : Store) (telegram_id : Int) : Bool :=
  (mmFind st telegram_id).isSome

/-- `BotStorage.touch_group`: refresh the title non-destructively
(`COALESCE(?, title)`) when the chat exists, otherwise insert it. -/
def touch_group (st : Store) (chat_id : Int) (title : Option String)
    (now : String) : Store :=
  match groupFind st chat_id with
  | some _ =>
      { st with groups := st.groups.map (fun g =>
          if g.chat_id == chat_id then
            { g with title := title.orElse (fun _ => g.title), updated_at := some now }
          else g) }
  | none =>
      { st with groups := st.groups ++
          [{ chat_id := chat_id, title := title, sales_master_manager_id := none,
             sales_manager_id := none, created_at := now, updated_at := some now }] }

/-- `BotStorage.assign_group_to_master`: `UPDATE groups SET
sales_master_manager_id = ?` (no-op when the chat row is absent). -/
def assign_group_to_master (st : Store) (chat_id master_manager_id : Int)
    (now : String) : Store :=
  { st with groups := st.groups.map (fun g =>
      if g.chat_id == chat_id then
        { g with sales_master_manager_id := some master_manager_id, updated_at := some now }
      else g) }

/-- `BotStorage.upsert_group_member`. -/
def upsert_group_member (st : Store) (chat_id telegram_id : Int)
    (username full_name message_preview : Option String) (now : String) : Store :=
  match st.group_members.find? (fun m => m.chat_id == chat_id && m.telegram_id == telegram_id) with
  | some _ =>
      { st with group_members := st.group_members.map (fun m =>
          if m.chat_id == chat_id && m.telegram_id == telegram_id then
            { m with username := username, full_name := full_name,
                     last_seen := now, last_message := message_preview }
          else m) }
  | none =>
      { st with group_members := st.group_members ++
          [{ chat_id := chat_id, telegram_id := telegram_id, username := username,
             full_name := full_name, first_seen := now, last_seen := now,
             last_message := message_preview }] }

/-- Error outcomes of `BotStorage.assign_sales_manager`: the explicit
`ValueError` raised by the check, and the `sqlite3.IntegrityError` raised by
the `group_chat_id UNIQUE` constraint. Either exception aborts the
uncommitted transaction, so the store is left unchanged. -/
inductive AssignError where
  | alreadyBoundElsewhere : AssignError
  | uniqueGroupViolation : AssignError
deriving DecidableEq, Repr

/-- `BotStorage.assign_sales_manager`: reject when the operator is already a
sales manager bound to a different group (checking `existing["group_chat_id"]
!= group_chat_id`, so a `NULL` binding is also rejected); otherwise upsert
the row at status `awaiting_api` — the `ON CONFLICT DO UPDATE` branch leaves
`created_at`, `encrypted_api_key` and `encrypted_api_secret` untouched — and
update the group's `sales_manager_id` binding in the same transaction. The
`UNIQUE` check on `group_chat_id` mirrors SQLite's constraint on the row
being inserted or updated. -/
def assign_sales_manager (st : Store) (telegram_id group_chat_id : Int)
    (username full_name : Option String) (now : String) : Except AssignError Store :=
  match get_sales_manager st telegram_id with
  | some existing =>
      if existing.group_chat_id != some group_chat_id then
        .error .alreadyBoundElsewhere
      else if st.sales_managers.any (fun r =>
          r.telegram_id != telegram_id && r.group_chat_id == some group_chat_id) then
        .error .uniqueGroupViolation
      else
        .ok { st with
              sales_managers := st.sales_managers.map (fun r =>
                if r.telegram_id == telegram_id then
                  { r with group_chat_id := some group_chat_id, username := username,
                           full_name := full_name, status := "awaiting_api",
                           updated_at := now }
                else r),
              groups := st.groups.map (fun g =>
                if g.chat_id == group_chat_id then
                  { g with sales_manager_id := some telegram_id, updated_at := some now }
                else g) }
  | none =>
      if st.sales_managers.any (fun r => r.group_chat_id == some group_chat_id) then
        .error .uniqueGroupViolation
      else
        .ok { st with
              sales_managers := st.sales_managers ++
                [{ telegram_id := telegram_id, group_chat_id := some group_chat_id,
                   username := username, full_name := full_name,
                   status := "awaiting_api", encrypted_api_key := none,
                   encrypted_api_secret := none, created_at := now, updated_at := now }],
              groups := st.groups.map (fun g =>
                if g.chat_id == group_chat_id then
                  { g with sales_manager_id := some telegram_id, updated_at := some now }
                else g) }

/-- `BotStorage.clear_sales_manager`: null every group binding pointing at
the manager, then delete the manager row. -/
def clear_sales_manager (st : Store) (telegram_id : Int) : Store :=
  { st with
    groups := st.groups.map (fun g =>
      if g.sales_manager_id == some telegram_id then
        { g with sales_manager_id := none }
      else g),
    sales_managers := st.sales_managers.filter (fun r => r.telegram_id != telegram_id) }

/-- `BotStorage.get_sales_manager_for_group`: the SQL join of `groups` (by
its `chat_id` primary key) with `sales_managers` on `g.sales_manager_id =
sm.telegram_id`. -/
def get_sales_manager_for_group (st : Store) (chat_id : Int) : Option SalesManagerRow :=
  match groupFind st chat_id with
  | some g =>
      match g.sales_manager_id with
      | some mid => get_sales_manager st mid
      | none => none
  | none => none

/-- `BotStorage.store_sales_manager_credentials`: encrypt both values and
persist ciphertext plus the new status (no-op when the id has no row). -/
def store_sales_manager_credentials (c : Cipher) (st : Store) (telegram_id : Int)
    (api_key api_secret status : String) (now : String) : Store :=
  { st with sales_managers := st.sales_managers.map (fun r =>
      if r.telegram_id == telegram_id then
        { r with encrypted_api_key := some (c.enc api_key),
                 encrypted_api_secret := some (c.enc api_secret),
                 status := status, updated_at := now }
      else r) }

/-- Python truthiness of a nullable TEXT column (`not manager[...]` is true
for `NULL` and for the empty string). -/
def colTruthy : Option String → Bool
  | none => false
  | some s => s != ""

/-- `BotStorage.get_decrypted_credentials`: resolve the manager row and
decrypt both columns, or `none` when the row is absent or either column is
falsy. -/
def get_decrypted_credentials (c : Cipher) (st : Store) (telegram_id : Int) :
    Option (String × String) :=
  match get_sales_manager st telegram_id with
  | none => none
  | some manager =>
      if colTruthy manager.encrypted_api_key && colTruthy manager.encrypted_api_secret then
        match manager.encrypted_api_key, manager.encrypted_api_secret with
        | some k, some s => some (c.dec k, c.dec s)
        | _, _ => none
      else none

/-- `BotStorage.get_group_credentials`: resolve the group's bound manager
and return `(telegram_id, api_key, api_secret, status)` with the
credentials decrypted, or `none` when unbound or credentials absent. -/
def get_group_credentials (c : Cipher) (st : Store) (chat_id : Int) :
    Option (Int × String × String × String) :=
  match get_sales_manager_for_group st chat_id with
  | none => none
  | some manager =>
      if colTruthy manager.encrypted_api_key && colTruthy manager.encrypted_api_secret then
        match manager.encrypted_api_key, manager.encrypted_api_secret with
        | some k, some s => some (manager.telegram_id, c.dec k, c.dec s, manager.status)
        | _, _ => none
      else none

/-- `BotStorage.log_order_request`: append one row and return its generated
id (`cursor.lastrowid`). -/
def log_order_request (st : Store) (chat_id requester_id : Int)
    (payload : OrderPayload) (sales_manager_id : Option Int) (status : String)
    (now : String) : Store × Int :=
  ({ st with
     order_requests := st.order_requests ++
       [{ id := st.next_order_id, chat_id := chat_id, requester_id := requester_id,
          payload := payload, sales_manager_id := sales_manager_id,
          status := status, created_at := now, updated_at := now }],
     next_order_id := st.next_order_id + 1 },
   st.next_order_id)

/-- `BotStorage.update_order_status`. -/
def update_order_status (st : Store) (order_id : Int) (status : String)
    (now : String) : Store :=
  { st with order_requests := st.order_requests.map (fun o =>
      if o.id == order_id then { o with status := status, updated_at := now }
      else o) }

/-- ASCII whitespace for the modelled `str.strip()`. -/
def isSpaceChar (ch : Char) : Bool :=
  ch == ' ' || ch == '\t' || ch == '\n' || ch == '\r'

/-- Python `str.strip()` (for the whitespace characters the bot can
receive): drop leading and trailing whitespace. -/
def pyStrip (s : String) : String :=
  String.mk (((s.data.dropWhile isSpaceChar).reverse.dropWhile isSpaceChar).reverse)

/-- Python `int(str)` on a decimal literal: optional surrounding
whitespace, an optional sign, then one or more ASCII digits; `none` models
the `ValueError` path (digit-grouping underscores are not modelled). -/
def pyInt? (s : String) : Option Int :=
  let chars := (pyStrip s).data
  let core : Int × List Char :=
    match chars with
    | '-' :: rest => (-1, rest)
    | '+' :: rest => (1, rest)
    | other => (1, other)
  if core.snd.isEmpty then none
  else if core.snd.all (fun ch => ch.isDigit) then
    some (core.fst * ((core.snd.foldl (fun acc ch => acc * 10 + (ch.toNat - 48)) 0 : Nat) : Int))
  else none


mutual

/-- Python `repr` of a JSON value, as used by `str()` on containers. -/
def pyRepr : Json → String
  | .null => "None"
  | .bool true => "True"
  | .bool false => "False"
  | .num n => toString n
  | .str s => "\x27" ++ s ++ "\x27"
  | .arr items => "[" ++ pyReprItems items ++ "]"
  | .obj fields => "\x7b" ++ pyReprFields fields ++ "\x7d"

/-- Comma-separated `repr` of list elements. -/
def pyReprItems : List Json → String
  | [] => ""
  | [x] => pyRepr x
  | x :: rest => pyRepr x ++ ", " ++ pyReprItems rest

/-- Comma-separated `repr` of dict entries. -/
def pyReprFields : List (String × Json) → String
  | [] => ""
  | [(k, v)] => "\x27" ++ k ++ "\x27: " ++ pyRepr v
  | (k, v) :: rest => "\x27" ++ k ++ "\x27: " ++ pyRepr v ++ ", " ++ pyReprFields rest

end

/-- Python `str()` of a JSON value (used by f-string interpolation). -/
def pyStr : Json → String
  | .str s => s
  | j => pyRepr j

/-- Python `a or b` on JSON values: keep `a` when truthy, else `b`. -/
def pyOrJson (a b : Json) : Json :=
  if a.truthy then a else b

/-- Outcome of one HTTP request, as the code observes it: a transport-level
`requests.RequestException`, or a response carrying a status code, a raw
body text and — when `response.json()` succeeds — a parsed JSON value. -/
inductive HttpResult where
  | netError (exc : String) : HttpResult
  | response (status : Nat) (text : String) (json : Option Json) : HttpResult

/-- `ERPNextClient.validate_credentials`: network failure, 401, and any other
status of 400 or more produce `ok = false` with a descriptive message; any
remaining status yields `ok = true`, with a degraded message when the body
is not JSON, and an identity message (from the `message` or `full_name`
field) when the body is a dict. -/
def validate_credentials (res : HttpResult) : Bool × String :=
  match res with
  | .netError exc => (false, "Connection to ERPNext failed: " ++ exc)
  | .response status text json =>
      if status == 401 then
        (false, "ERPNext rejected the API credentials (401 Unauthorized).")
      else if status ≥ 400 then
        (false, "ERPNext returned " ++ toString status ++ ": " ++ text)
      else
        match json with
        | none => (true, "Credentials valid, but ERPNext response could not be decoded.")
        | some data =>
            match data with
            | .obj _ =>
                let user := pyOrJson ((data.get "message").getD .null)
                  (pyOrJson ((data.get "full_name").getD .null) (.str ""))
                (true, pyStrip ("Credentials validated for " ++ pyStr user))
            | _ => (true, "Credentials validated successfully.")

/-- Python f-string interpolation of an optional string (`None` renders as
the text `None`). -/
def pyShow : Option String → String
  | some s => s
  | none => "None"

/-- Python `a or b` on two optional strings (`None` and the empty string are
falsy). -/
def pyOrOpt (a b : Option String) : Option String :=
  if colTruthy a then a else b

/-- `pathlib.Path.name`: the final path component. -/
def pathName (p : String) : String :=
  (p.splitOn "/").getLastD p

/-- The slice of `BotConfig` (telegram/config.py) that the modelled handlers
read. -/
structure BotConfig where
  admin_ids : List Int

/-- `OrderSettings` from telegram/config.py (only the field the modelled
handlers read). -/
structure OrderSettings where
  attach_order_photo : Bool

/-- The ERPNext gateway as an oracle: each field gives the outcome the
external system would return for a call with those arguments. `createLead`
and `uploadFile` take `(api_key, api_secret, payload arguments)` and either
fail with an `ERPNextError` message or return the parsed response. -/
structure ErpOracle where
  validate : String → String → Bool × String
  createLead : String → String → String → Option String → String → Except String Json
  uploadFile : String → String → String → Except String Json

/-- In-memory `OrderDraft` dataclass from telegram/bot.py. -/
structure OrderDraft where
  chat_id : Int
  requester_id : Int
  requester_name : String
  photo_path : Option String
  photo_caption : Option String
  phone : Option String
  notes : Option String
  quantity : Option String
  unit : Option String
deriving DecidableEq, Repr

/-- Conversation state of the order flow: `idle` is
`ConversationHandler.END`, the rest are the `ORDER_*` states. -/
inductive OrderState where
  | idle : OrderState
  | awaitingPhoto : OrderState
  | awaitingPhone : OrderState
  | awaitingNotes : OrderState
  | awaitingQty : OrderState
  | awaitingUnit : OrderState
deriving DecidableEq, Repr

/-- `SalesBot._clear_order_draft`: pop the draft from `user_data` and unlink
any staged photo file (the delete is idempotent; the model reports the path
whose removal was attempted). -/
def clear_order_draft (draft : Option OrderDraft) : Option OrderDraft × List String :=
  match draft with
  | some d =>
      (none, match d.photo_path with
             | some p => [p]
             | none => [])
  | none => (none, [])

/-- Result of `handle_order_start`: the (unchanged) store, the conversation
state returned, the `user_data` draft slot after the call, and the replies
sent. -/
structure StartResult where
  store : Store
  state : OrderState
  draft : Option OrderDraft
  replies : List String

/-- `SalesBot.handle_order_start`: refuse outside group chats, refuse when
the group has no resolvable credentials, refuse when the bound manager is
not `active`; otherwise place a fresh draft in `user_data` and enter
`ORDER_PHOTO`. The handler performs no store writes on any path. -/
def handle_order_start (c : Cipher) (st : Store) (isGroupChat : Bool)
    (chat_id user_id : Int) (requester_name : String)
    (prior : Option OrderDraft) : StartResult :=
  if !isGroupChat then
    { store := st, state := .idle, draft := prior,
      replies := ["Buyurtma faqat guruhda boshlanadi."] }
  else
    match get_group_credentials c st chat_id with
    | none =>
        { store := st, state := .idle, draft := prior,
          replies := ["Bu guruh uchun sales manager tayinlanmagan."] }
    | some (_, _, _, status) =>
        if status != "active" then
          { store := st, state := .idle, draft := prior,
            replies := ["Sales manager API kalitlarini hali tasdiqlamagan."] }
        else
          { store := st, state := .awaitingPhoto,
            draft := some { chat_id := chat_id, requester_id := user_id,
                            requester_name := requester_name, photo_path := none,
                            photo_caption := none, phone := none, notes := none,
                            quantity := none, unit := none },
            replies := ["📥 Buyurtma qabul qilindi. Iltimos tovar rasmini yuboring yoki `/skip` deb yozing."] }

/-- Result of one mid-flow message handler: next conversation state, draft
slot after the call, replies sent. -/
structure StepResult where
  state : OrderState
  draft : Option OrderDraft
  replies : List String

/-- `SalesBot.handle_order_photo`: stage the downloaded photo under a
scoped temp-file name and capture the caption. `tmp_dir` models
`tempfile.gettempdir()` and `file_unique_id` the Telegram file id. -/
def handle_order_photo (draft : Option OrderDraft) (tmp_dir file_unique_id : String)
    (caption : Option String) : StepResult :=
  match draft with
  | none => { state := .idle, draft := none, replies := [] }
  | some d =>
      let file_path := tmp_dir ++ "/order_" ++ toString d.chat_id ++ "_" ++
        toString d.requester_id ++ "_" ++ file_unique_id ++ ".jpg"
      { state := .awaitingPhone,
        draft := some { d with photo_path := some file_path, photo_caption := caption },
        replies := ["📞 Telefon raqamini kiriting:"] }

/-- `SalesBot.handle_order_skip_photo`: advance without reading or writing
the draft. -/
def handle_order_skip_photo (draft : Option OrderDraft) : StepResult :=
  { state := .awaitingPhone, draft := draft, replies := ["📞 Telefon raqamini kiriting:"] }

/-- `SalesBot.handle_order_phone`: store the trimmed reply and advance. -/
def handle_order_phone (draft : Option OrderDraft) (text : String) : StepResult :=
  match draft with
  | none => { state := .idle, draft := none, replies := [] }
  | some d =>
      { state := .awaitingNotes, draft := some { d with phone := some (pyStrip text) },
        replies := ["ℹ️ Qo\x27shimcha ma\x27lumot yoki talabni kiriting (masalan, mahsulot turi):"] }

/-- `SalesBot.handle_order_notes`. -/
def handle_order_notes (draft : Option OrderDraft) (text : String) : StepResult :=
  match draft with
  | none => { state := .idle, draft := none, replies := [] }
  | some d =>
      { state := .awaitingQty, draft := some { d with notes := some (pyStrip text) },
        replies := ["🔢 Miqdorini kiriting:"] }

/-- `SalesBot.handle_order_quantity`. -/
def handle_order_quantity (draft : Option OrderDraft) (text : String) : StepResult :=
  match draft with
  | none => { state := .idle, draft := none, replies := [] }
  | some d =>
      { state := .awaitingUnit, draft := some { d with quantity := some (pyStrip text) },
        replies := ["📏 O\x27lchov birligini kiriting (kg, dona va hokazo):"] }

/-- External ERPNext calls issued by the submit step, for tracking which
calls a run performed. -/
inductive ErpCall where
  | createLead (lead_name : String) (phone : Option String) (notes : String) : ErpCall
  | uploadFile (file_name : String) : ErpCall

/-- Result of `handle_order_unit` (the `Terminal(Submit)` step): final store,
conversation state, draft slot, replies to the group, messages sent to the
bound manager, external ERPNext calls made, and staged files unlinked. -/
structure UnitResult where
  store : Store
  state : OrderState
  draft : Option OrderDraft
  replies : List String
  managerMessages : List (Int × String)
  erpCalls : List ErpCall
  unlinked : List String

/-- Summary echoed by the submit step (the `summary_lines` f-strings). -/
def summaryMsg (d : OrderDraft) : String :=
  "✅ Buyurtma ma\x27lumotlari:\n- Telefon: " ++ pyShow d.phone ++
    "\n- Tavsif: " ++ pyShow d.notes ++ "\n- Miqdor: " ++ pyShow d.quantity ++
    " " ++ pyShow d.unit ++ "\n\nERPNext ga yuborilmoqda..."

/-- The `notes` f-string sent with the created lead. -/
def orderNotes (d : OrderDraft) : String :=
  "Telegram foydalanuvchisi: " ++ d.requester_name ++ " (" ++
    toString d.requester_id ++ ")\nGuruh: " ++ toString d.chat_id ++
    "\nTelefon: " ++ pyShow d.phone ++ "\nTavsif: " ++ pyShow d.notes ++
    "\nMiqdor: " ++ pyShow d.quantity ++ " " ++ pyShow d.unit

/-- The notification text sent to the bound manager after a submit. -/
def managerNotice (d : OrderDraft) : String :=
  "Yangi buyurtma kelib tushdi.\nFoydalanuvchi: " ++ d.requester_name ++
    "\nTelefon: " ++ pyShow d.phone ++ "\nMiqdor: " ++ pyShow d.quantity ++
    " " ++ pyShow d.unit

/-- Body of `SalesBot.handle_order_unit` after the unit has been stored on
the draft `d`: echo the summary, re-resolve the group's credentials, abort
(discarding the draft) when they are missing or not `active`, otherwise
create the lead, optionally upload the staged photo, append one
`order_requests` row at status `created`, notify the bound manager, and
clear the draft. -/
def order_submit (c : Cipher) (os : OrderSettings) (erp : ErpOracle)
    (st : Store) (d : OrderDraft) (now : String) : UnitResult :=
  match get_group_credentials c st d.chat_id with
  | none =>
      { store := st, state := .idle, draft := none,
        replies := [summaryMsg d, "Sales manager ma\x27lumotlari topilmadi."],
        managerMessages := [], erpCalls := [],
        unlinked := (clear_order_draft (some d)).snd }
  | some (manager_id, api_key, api_secret, status) =>
      if status != "active" then
        { store := st, state := .idle, draft := none,
          replies := [summaryMsg d, "Sales manager API kalitlari tasdiqlanmagan."],
          managerMessages := [], erpCalls := [],
          unlinked := (clear_order_draft (some d)).snd }
      else
        match erp.createLead api_key api_secret d.requester_name d.phone (orderNotes d) with
        | .error exc =>
            { store := st, state := .idle, draft := none,
              replies := [summaryMsg d, "ERPNext ga saqlashda xatolik: " ++ exc],
              managerMessages := [],
              erpCalls := [.createLead d.requester_name d.phone (orderNotes d)],
              unlinked := (clear_order_draft (some d)).snd }
        | .ok lead_response =>
            let uploadStep : Option Json × List ErpCall × List String :=
              match d.photo_path with
              | some p =>
                  if os.attach_order_photo then
                    match erp.uploadFile api_key api_secret (pathName p) with
                    | .ok upload =>
                        (((upload.get "message").getD (.obj [])).get "file_url",
                         [.uploadFile (pathName p)], [])
                    | .error exc =>
                        (none, [.uploadFile (pathName p)],
                         ["Rasmni yuklashning imkoni bo\x27lmadi: " ++ exc])
                  else (none, [], [])
              | none => (none, [], [])
            let order_payload : OrderPayload :=
              { lead := lead_response, phone := d.phone, notes := d.notes,
                quantity := d.quantity, unit := d.unit, attachment := uploadStep.fst }
            let logged := log_order_request st d.chat_id d.requester_id order_payload
              (some manager_id) "created" now
            { store := logged.fst, state := .idle, draft := none,
              replies := [summaryMsg d] ++ uploadStep.snd.snd ++
                ["✅ Buyurtma ERPNext ga yuborildi. ID: " ++ toString logged.snd],
              managerMessages := [(manager_id, managerNotice d)],
              erpCalls := [.createLead d.requester_name d.phone (orderNotes d)] ++ uploadStep.snd.fst,
              unlinked := (clear_order_draft (some d)).snd }

/-- `SalesBot.handle_order_unit`: store the trimmed unit reply on the draft
and run the submit step (`order_submit`); without a draft the conversation
just ends. -/
def handle_order_unit (c : Cipher) (os : OrderSettings) (erp : ErpOracle)
    (st : Store) (draft : Option OrderDraft) (text : String) (now : String) : UnitResult :=
  match draft with
  | none =>
      { store := st, state := .idle, draft := none, replies := [],
        managerMessages := [], erpCalls := [], unlinked := [] }
  | some d0 => order_submit c os erp st { d0 with unit := some (pyStrip text) } now

/-- Result of `handle_order_cancel`. -/
structure CancelResult where
  state : OrderState
  draft : Option OrderDraft
  replies : List String
  unlinked : List String

/-- `SalesBot.handle_order_cancel`: acknowledge, clear the draft (removing
any staged photo file), and end the conversation. -/
def handle_order_cancel (draft : Option OrderDraft) : CancelResult :=
  { state := .idle, draft := (clear_order_draft draft).fst,
    replies := ["Buyurtma bekor qilindi."],
    unlinked := (clear_order_draft draft).snd }

/-- Result of a command handler: store after the call, replies to the
issuing chat, and direct messages sent (recipient, text). -/
structure CommandResult where
  store : Store
  replies : List String
  dms : List (Int × String)

/-- `SalesBot.handle_add_master_manager`: admin-gated idempotent upsert; a
new record reports added wording and DMs the target, an existing one reports
already-registered wording. -/
def handle_add_master_manager (cfg : BotConfig) (st : Store) (user_id : Int)
    (args : List String) (now : String) : CommandResult :=
  if !(cfg.admin_ids.contains user_id) then
    { store := st, replies := ["Bu buyruq faqat adminlar uchun."], dms := [] }
  else
    match args with
    | [] =>
        { store := st, replies := ["Foydalanish: /add_master_manager <telegram_id>"], dms := [] }
    | first :: rest =>
        match pyInt? first with
        | none =>
            { store := st,
              replies := ["Telegram ID faqat sonlardan iborat bo\x27lishi kerak."], dms := [] }
        | some target_id =>
            let name_hint := rest.head?
            let res := add_master_manager st target_id name_hint none (some user_id) now
            if res.snd then
              { store := res.fst,
                replies := [toString target_id ++ " Sales Master Manager sifatida qo\x27shildi."],
                dms := [(target_id, "Siz sales master manager sifatida tayinlandingiz. Guruhingizda `/users` buyruqni ishlating.")] }
            else
              { store := res.fst,
                replies := [toString target_id ++ " allaqachon ro\x27yxatdan o\x27tgan, ma\x27lumot yangilandi."],
                dms := [] }

/-- `SalesBot.handle_remove_master_manager`. -/
def handle_remove_master_manager (cfg : BotConfig) (st : Store) (user_id : Int)
    (args : List String) : CommandResult :=
  if !(cfg.admin_ids.contains user_id) then
    { store := st, replies := ["Bu buyruq faqat adminlar uchun."], dms := [] }
  else
    match args with
    | [] =>
        { store := st, replies := ["Foydalanish: /remove_master_manager <telegram_id>"], dms := [] }
    | first :: _ =>
        match pyInt? first with
        | none =>
            { store := st,
              replies := ["Telegram ID faqat sonlardan iborat bo\x27lishi kerak."], dms := [] }
        | some target_id =>
            { store := remove_master_manager st target_id,
              replies := [toString target_id ++ " ro\x27yxatdan o\x27chirildi."], dms := [] }

/-- Outcome of `context.bot.get_chat_member` for the selected member, as the
assignment callback observes it. -/
inductive MemberLookup where
  | failed : MemberLookup
  | found (isBot : Bool) (username fullName : Option String) : MemberLookup

/-- Result of the `assign_sm` callback: store after the call, the
`edit_message_text` reply, direct messages sent, and whether an exception
other than `ValueError` escaped the handler (the `IntegrityError` from the
`UNIQUE` constraint is not caught). -/
structure AssignCallbackResult where
  store : Store
  reply : String
  dms : List (Int × String)
  unhandled : Bool

/-- `SalesBot.handle_assign_sales_manager` (the `assign_sm:` callback):
master-manager gate, member lookup, bot check, then
`storage.assign_sales_manager` — whose `ValueError` is reported verbatim
with no state change — followed by a DM to the new manager and a final
`touch_group`. -/
def handle_assign_sales_manager (st : Store) (caller_id chat_id member_id : Int)
    (chat_title : Option String) (lookup : MemberLookup) (dmDelivered : Bool)
    (now : String) : AssignCallbackResult :=
  if !is_master_manager st caller_id then
    { store := st, reply := "Siz sales master manager emassiz.", dms := [], unhandled := false }
  else
    match lookup with
    | .failed =>
        { store := st, reply := "Tanlangan foydalanuvchini topib bo\x27lmadi.",
          dms := [], unhandled := false }
    | .found true _ _ =>
        { store := st, reply := "Botni sales manager qilib tayinlab bo\x27lmaydi.",
          dms := [], unhandled := false }
    | .found false username fullName =>
        match assign_sales_manager st member_id chat_id username fullName now with
        | .error .alreadyBoundElsewhere =>
            { store := st, reply := "User is already a sales manager in a different group.",
              dms := [], unhandled := false }
        | .error .uniqueGroupViolation =>
            { store := st, reply := "", dms := [], unhandled := true }
        | .ok st1 =>
            let sm_text := "🎉 Siz sales manager sifatida tayinlandingiz!\n\nERPNext API kalit va secret yuborish uchun shaxsiy chatda quyidagidan foydalaning:\n`/set_api <api_key> <api_secret>`\n\nKalitlar tekshirilgandan so\x27ng guruh foydalanuvchilari `/report` va `/order` dan foydalanishi mumkin bo\x27ladi."
            let reply := if dmDelivered then
                pyShow (pyOrOpt fullName username) ++ " sales manager sifatida tayinlandi."
              else
                "Foydalanuvchi sales manager bo\x27ldi, ammo shaxsiy xabar yuborilmadi. Iltimos ular botga /start yuborishlarini eslatib qo\x27ying."
            { store := touch_group st1 chat_id chat_title now, reply := reply,
              dms := [(member_id, sm_text)], unhandled := false }

/-- Result of `handle_set_api_credentials`: store after the call, replies to
the private chat, and the group notification sent on success (the bound
chat id may be `NULL` in the row). -/
structure SetApiResult where
  store : Store
  replies : List String
  groupMessages : List (Option Int × String)

/-- `SalesBot.handle_set_api_credentials`: private-chat only; requires an
existing sales-manager row; validates the submitted pair against ERPNext and
stores the encrypted credentials with status `active` exactly when
validation succeeded, `awaiting_api` otherwise. -/
def handle_set_api_credentials (c : Cipher) (erp : ErpOracle) (st : Store)
    (isPrivateChat : Bool) (user_id : Int) (args : List String)
    (userDisplay : String) (now : String) : SetApiResult :=
  if !isPrivateChat then
    { store := st, replies := ["API kalitlarni faqat shaxsiy chatda yuboring."],
      groupMessages := [] }
  else
    match args with
    | a0 :: a1 :: _ =>
        match get_sales_manager st user_id with
        | none =>
            { store := st, replies := ["Siz sales manager sifatida tayinlanmagansiz."],
              groupMessages := [] }
        | some manager =>
            let vr := erp.validate (pyStrip a0) (pyStrip a1)
            let status := if vr.fst then "active" else "awaiting_api"
            let result_text := if vr.fst then
                "✅ Kalitlar tasdiqlandi: " ++ vr.snd
              else
                "❌ Kalitlar tasdiqlanmadi: " ++ vr.snd ++ "\nIltimos qayta urinib ko\x27ring."
            { store := store_sales_manager_credentials c st user_id (pyStrip a0) (pyStrip a1) status now,
              replies := [result_text],
              groupMessages := if vr.fst then
                  [(manager.group_chat_id, userDisplay ++ " ERPNext bilan muvaffaqiyatli bog\x27landi.")]
                else [] }
    | _ =>
        { store := st, replies := ["Foydalanish: /set_api <api_key> <api_secret>"],
          groupMessages := [] }

/-- Storage effect of `SalesBot.handle_group_activity`: touch the group and
upsert the member (skipping bot senders), previewing the first 120
characters of the message text. -/
def handle_group_activity (st : Store) (chat_id : Int) (title : Option String)
    (user_id : Int) (isBot : Bool) (username full_name : Option String)
    (message_text : Option String) (now : String) : Store :=
  if isBot then st
  else
    upsert_group_member (touch_group st chat_id title now) chat_id user_id
      username full_name (message_text.map (fun t => String.mk (t.data.take 120))) now

/-- Storage effect of `SalesBot.handle_list_group_users`: in a group chat,
a master manager touching the group claims it
(`assign_group_to_master`). Replies and the selection keyboard are not
modelled. -/
def handle_list_group_users (st : Store) (chat_id : Int) (title : Option String)
    (user_id : Int) (isGroupChat : Bool) (now : String) : Store :=
  if !isGroupChat then st
  else if !is_master_manager st user_id then st
  else assign_group_to_master (touch_group st chat_id title now) chat_id user_id now

/-- Data available to `SalesBot.handle_error`: whether the update carries an
effective message, and the `user_data` draft slot of the session in which
the exception was raised. -/
structure ErrorContext where
  hasEffectiveMessage : Bool
  draft : Option OrderDraft

/-- Result of the top-level error handler. -/
structure ErrorResult where
  logged : Bool
  replies : List String
  draft : Option OrderDraft
  unlinked : List String

/-- `SalesBot.handle_error`: log the exception and send the generic apology
when the update has an effective message. The handler does not touch
`user_data`, so the draft slot is returned unchanged and no staged file is
unlinked. -/
def handle_error (ctx : ErrorContext) : ErrorResult :=
  { logged := true,
    replies := if ctx.hasEffectiveMessage then ["Botda kutilmagan xatolik yuz berdi."] else [],
    draft := ctx.draft,
    unlinked := [] }

/-- One inbound Telegram update, reduced to the data its handler reads.
Chat-type guards, argument lists and oracle outcomes are carried in the
event; handlers whose guard fails perform no storage writes. -/
inductive BotEvent where
  | startGroup (chat_id : Int) (title : Option String) : BotEvent
  | addMaster (user_id : Int) (args : List String) : BotEvent
  | removeMaster (user_id : Int) (args : List String) : BotEvent
  | listUsers (chat_id : Int) (title : Option String) (user_id : Int)
      (isGroupChat : Bool) : BotEvent
  | assignSm (caller_id chat_id member_id : Int) (chat_title : Option String)
      (lookup : MemberLookup) (dmDelivered : Bool) : BotEvent
  | setApi (user_id : Int) (isPrivateChat : Bool) (args : List String)
      (userDisplay : String) : BotEvent
  | orderStart (isGroupChat : Bool) (chat_id user_id : Int)
      (requester_name : String) (prior : Option OrderDraft) : BotEvent
  | orderUnit (draft : Option OrderDraft) (text : String) : BotEvent
  | groupActivity (chat_id : Int) (title : Option String) (user_id : Int)
      (isBot : Bool) (username full_name message_text : Option String) : BotEvent

/-- Storage effect of dispatching one event through the corresponding
`SalesBot` handler. -/
def stepStore (cfg : BotConfig) (os : OrderSettings) (erp : ErpOracle) (c : Cipher)
    (now : String) (ev : BotEvent) (st : Store) : Store :=
  match ev with
  | .startGroup chat_id title => touch_group st chat_id title now
  | .addMaster user_id args => (handle_add_master_manager cfg st user_id args now).store
  | .removeMaster user_id args => (handle_remove_master_manager cfg st user_id args).store
  | .listUsers chat_id title user_id isG =>
      handle_list_group_users st chat_id title user_id isG now
  | .assignSm caller_id chat_id member_id chat_title lookup dm =>
      (handle_assign_sales_manager st caller_id chat_id member_id chat_title lookup dm now).store
  | .setApi user_id isPrivate args disp =>
      (handle_set_api_credentials c erp st isPrivate user_id args disp now).store
  | .orderStart isG chat_id user_id name prior =>
      (handle_order_start c st isG chat_id user_id name prior).store
  | .orderUnit draft text => (handle_order_unit c os erp st draft text now).store
  | .groupActivity chat_id title user_id isBot username full_name message_text =>
      handle_group_activity st chat_id title user_id isBot username full_name message_text now

/-- One public mutating operation of `BotStorage`, with its arguments. -/
inductive StorageOp where
  | addMasterManager (telegram_id : Int) (full_name username : Option String)
      (added_by : Option Int) : StorageOp
  | removeMasterManager (telegram_id : Int) : StorageOp
  | touchGroup (chat_id : Int) (title : Option String) : StorageOp
  | assignGroupToMaster (chat_id master_manager_id : Int) : StorageOp
  | upsertGroupMember (chat_id telegram_id : Int)
      (username full_name message_preview : Option String) : StorageOp
  | assignSalesManager (telegram_id group_chat_id : Int)
      (username full_name : Option String) : StorageOp
  | clearSalesManager (telegram_id : Int) : StorageOp
  | storeCredentials (telegram_id : Int) (api_key api_secret status : String) : StorageOp
  | logOrderRequest (chat_id requester_id : Int) (payload : OrderPayload)
      (sales_manager_id : Option Int) (status : String) : StorageOp
  | updateOrderStatus (order_id : Int) (status : String) : StorageOp

/-- Execute one storage operation. A failing `assign_sales_manager` raises
out of the uncommitted transaction, so the store is left unchanged. -/
def applyOp (c : Cipher) (now : String) (op : StorageOp) (st : Store) : Store :=
  match op with
  | .addMasterManager id fn un ab => (add_master_manager st id fn un ab now).fst
  | .removeMasterManager id => remove_master_manager st id
  | .touchGroup chat_id title => touch_group st chat_id title now
  | .assignGroupToMaster chat_id mid => assign_group_to_master st chat_id mid now
  | .upsertGroupMember chat_id id un fn mp => upsert_group_member st chat_id id un fn mp now
  | .assignSalesManager id gcid un fn =>
      match assign_sales_manager st id gcid un fn now with
      | .ok st1 => st1
      | .error _ => st
  | .clearSalesManager id => clear_sales_manager st id
  | .storeCredentials id k s status => store_sales_manager_credentials c st id k s status now
  | .logOrderRequest chat_id rid payload smid status =>
      (log_order_request st chat_id rid payload smid status now).fst
  | .updateOrderStatus oid status => update_order_status st oid status now

/-- Stores reachable from a fresh database by any sequence of storage
operations. -/
inductive Reachable : Store → Prop where
  | init : Reachable emptyStore
  | step (st : Store) (c : Cipher) (now : String) (op : StorageOp) :
      Reachable st → Reachable (applyOp c now op st)

/-- The one-to-one binding property of claim C2: any two manager rows bound
to the same group coincide, and any two group rows bound to the same
manager coincide. -/
def BindingOneToOne (st : Store) : Prop :=
  (∀ r1 ∈ st.sales_managers, ∀ r2 ∈ st.sales_managers, ∀ g : Int,
      r1.group_chat_id = some g → r2.group_chat_id = some g → r1 = r2) ∧
  (∀ g1 ∈ st.groups, ∀ g2 ∈ st.groups, ∀ m : Int,
      g1.sales_manager_id = some m → g2.sales_manager_id = some m → g1 = g2)

/-- Inductive invariant of the store: primary-key uniqueness for `groups`
and `sales_managers`, the `UNIQUE` constraint on `group_chat_id`, and
consistency of a group's binding with its manager's row. -/
structure StoreInv (st : Store) : Prop where
  groupsPK : st.groups.Pairwise (fun a b => a.chat_id ≠ b.chat_id)
  smPK : st.sales_managers.Pairwise (fun a b => a.telegram_id ≠ b.telegram_id)
  smGroupUnique : st.sales_managers.Pairwise (fun a b =>
      ∀ g : Int, a.group_chat_id = some g → b.group_chat_id ≠ some g)
  consistent : ∀ g ∈ st.groups, ∀ m : Int, g.sales_manager_id = some m →
      ∃ r ∈ st.sales_managers, r.telegram_id = m ∧ r.group_chat_id = some g.chat_id

/-- Status column of an operator's `sales_managers` row, when present. -/
def managerStatus (st : Store) (telegram_id : Int) : Option String :=
  (get_sales_manager st telegram_id).map (fun r => r.status)

/-- A `/set_api` invocation whose submitted key/secret pair the external
`validate_credentials` call accepted. -/
def SetApiActivation (erp : ErpOracle) (args : List String) : Prop :=
  ∃ a0 a1 rest, args = a0 :: a1 :: rest ∧ (erp.validate (pyStrip a0) (pyStrip a1)).fst = true

/-- The completed order flow of claim C3: `/order`, `/skip`, then the
phone, notes, quantity and unit replies, ending in the submit step. The
store is only read until the submit step, which re-resolves credentials
and performs the writes. -/
def runCompletedFlow (c : Cipher) (os : OrderSettings) (erp : ErpOracle)
    (st : Store) (chat_id user_id : Int) (requester_name : String)
    (phone notes qty unitText : String) (now : String) : UnitResult :=
  let s0 := handle_order_start c st true chat_id user_id requester_name none
  let s1 := handle_order_skip_photo s0.draft
  let s2 := handle_order_phone s1.draft phone
  let s3 := handle_order_notes s2.draft notes
  let s4 := handle_order_quantity s3.draft qty
  handle_order_unit c os erp st s4.draft unitText now

/-- Witness fixture: a store with master manager 1, group 100 bound to
sales manager 7, whose credentials are stored and whose status is
`active`. -/
def wStoreActive : Store :=
  { master_managers := [{ telegram_id := 1, full_name := none, username := none,
                          added_by := none, created_at := "t0" }],
    groups := [{ chat_id := 100, title := some "G", sales_master_manager_id := some 1,
                 sales_manager_id := some 7, created_at := "t0", updated_at := some "t0" }],
    group_members := [],
    sales_managers := [{ telegram_id := 7, group_chat_id := some 100, username := some "sam",
                         full_name := some "Sam", status := "active",
                         encrypted_api_key := some (tagCipher.enc "KEY"),
                         encrypted_api_secret := some (tagCipher.enc "SEC"),
                         created_at := "t0", updated_at := "t0" }],
    order_requests := [],
    next_order_id := 1 }

/-- Witness fixture: as `wStoreActive` but the manager has not yet
validated credentials (status `awaiting_api`). -/
def wStoreAwaiting : Store :=
  { master_managers := [{ telegram_id := 1, full_name := none, username := none,
                          added_by := none, created_at := "t0" }],
    groups := [{ chat_id := 100, title := some "G", sales_master_manager_id := some 1,
                 sales_manager_id := some 7, created_at := "t0", updated_at := some "t0" }],
    group_members := [],
    sales_managers := [{ telegram_id := 7, group_chat_id := some 100, username := some "sam",
                         full_name := some "Sam", status := "awaiting_api",
                         encrypted_api_key := some (tagCipher.enc "KEY"),
                         encrypted_api_secret := some (tagCipher.enc "SEC"),
                         created_at := "t0", updated_at := "t0" }],
    order_requests := [],
    next_order_id := 1 }

/-- Witness fixture: a draft without a staged photo, mid-flow in chat 100. -/
def wDraftNoPhoto : OrderDraft :=
  { chat_id := 100, requester_id := 5, requester_name := "User",
    photo_path := none, photo_caption := none, phone := some "998901234567",
    notes := some "test", quantity := some "10", unit := none }

/-- Witness fixture: a draft holding a staged photo file. -/
def wDraftPhoto : OrderDraft :=
  { chat_id := 100, requester_id := 5, requester_name := "User",
    photo_path := some "/tmp/order_100_5_abc.jpg", photo_caption := none,
    phone := some "998901234567", notes := none, quantity := none, unit := none }

/-- Witness fixture: an ERPNext oracle that accepts every call. -/
def wOracle : ErpOracle :=
  { validate := fun _ _ => (true, "Credentials validated for admin"),
    createLead := fun _ _ _ _ _ => .ok .null,
    uploadFile := fun _ _ _ => .ok (.obj []) }

/-! ### Helper lemmas -/

theorem find?_map_key {α : Type} (l : List α) (f : α → α) (p : α → Bool)
    (hp : ∀ a, p (f a) = p a) :
    (l.map f).find? p = (l.find? p).map f := by
  have hpf : (p ∘ f) = p := funext hp
  rw [List.find?_map, hpf]

theorem find?_map_untouched {α : Type} (l : List α) (f : α → α) (p : α → Bool)
    (hp : ∀ a, p (f a) = p a) (hf : ∀ a, p a = true → f a = a) :
    (l.map f).find? p = l.find? p := by
  rw [find?_map_key l f p hp]
  cases h : l.find? p with
  | none => rfl
  | some a => simp [hf a (List.find?_some h)]

/-! ### Claims -/

/-- C9: `validate_credentials` returns `ok = false` with a descriptive
message for a transport failure, for a 401 response, and for every status
of 400 or more; every 2xx response yields `ok = true`, with the degraded
decode message when the body cannot be parsed as JSON. -/
theorem C9_validate_credentials (exc text : String) (status : Nat) (body : Option Json) :
    (validate_credentials (.netError exc) =
      (false, "Connection to ERPNext failed: " ++ exc)) ∧
    (status = 401 →
      validate_credentials (.response status text body) =
        (false, "ERPNext rejected the API credentials (401 Unauthorized).")) ∧
    (400 ≤ status →
      (validate_credentials (.response status text body)).fst = false) ∧
    (200 ≤ status → status < 300 →
      (validate_credentials (.response status text body)).fst = true) ∧
    (200 ≤ status → status < 300 → body = none →
      validate_credentials (.response status text body) =
        (true, "Credentials valid, but ERPNext response could not be decoded.")) := by
  refine ⟨rfl, ?_, ?_, ?_, ?_⟩
  · intro h
    subst h
    rfl
  · intro h400
    unfold validate_credentials
    by_cases h401 : status = 401
    · simp [h401]
    · simp [h401, h400]
  · intro h200 h300
    have h401 : ¬ status = 401 := by omega
    have h400 : ¬ 400 ≤ status := by omega
    unfold validate_credentials
    simp only [h401, h400, beq_iff_eq, if_false, if_neg, ite_false]
    cases body with
    | none => simp [h401, h400]
    | some data => cases data <;> simp [h401, h400]
  · intro h200 h300 hbody
    subst hbody
    have h401 : ¬ status = 401 := by omega
    have h400 : ¬ 400 ≤ status := by omega
    unfold validate_credentials
    simp [h401, h400]

/-- Witness for C9 at concrete responses: a 401, an unparsable 2xx body,
and a 500. -/
theorem C9_validate_credentials_witness :
    validate_credentials (.response 401 "denied" none) =
      (false, "ERPNext rejected the API credentials (401 Unauthorized).") ∧
    validate_credentials (.response 200 "garbage" none) =
      (true, "Credentials valid, but ERPNext response could not be decoded.") ∧
    (validate_credentials (.response 500 "boom" none)).fst = false :=
  ⟨(C9_validate_credentials "x" "denied" 401 none).2.1 rfl,
   (C9_validate_credentials "x" "garbage" 200 none).2.2.2.2 (by decide) (by decide) rfl,
   (C9_validate_credentials "x" "boom" 500 none).2.2.1 (by decide)⟩

/-- C6 counterexample: with a draft holding a staged photo file in the
failing session's `user_data`, the top-level error handler leaves the draft
in place and unlinks nothing, so the draft's temporary resources are left
unreleased, contrary to the claim. -/
theorem C6_counterexample :
    (handle_error { hasEffectiveMessage := true, draft := some wDraftPhoto }).draft =
      some wDraftPhoto ∧
    wDraftPhoto.photo_path = some "/tmp/order_100_5_abc.jpg" ∧
    (handle_error { hasEffectiveMessage := true, draft := some wDraftPhoto }).unlinked = [] :=
  ⟨rfl, rfl, rfl⟩

/-- C6 amended: for every unhandled exception the top-level error handler
logs it and — when the update carries an effective message — sends the
generic apology, but it leaves the session's draft slot exactly as it was
and releases no staged photo file. -/
theorem C6_error_handler_behaviour (ctx : ErrorContext) :
    (handle_error ctx).logged = true ∧
    (ctx.hasEffectiveMessage = true →
      (handle_error ctx).replies = ["Botda kutilmagan xatolik yuz berdi."]) ∧
    (handle_error ctx).draft = ctx.draft ∧
    (handle_error ctx).unlinked = [] := by
  refine ⟨rfl, ?_, rfl, rfl⟩
  intro h
  simp [handle_error, h]

/-- Witness for the amended C6 at a concrete context. -/
theorem C6_error_handler_behaviour_witness :
    (handle_error { hasEffectiveMessage := true, draft := none }).replies =
      ["Botda kutilmagan xatolik yuz berdi."] ∧
    (handle_error { hasEffectiveMessage := true, draft := none }).draft = none :=
  ⟨(C6_error_handler_behaviour _).2.1 rfl, (C6_error_handler_behaviour _).2.2.1⟩

/-- C8: `add_master_manager` is an idempotent upsert keyed on the operator
id — a missing id inserts exactly one row and returns `true`, an existing
id refreshes name/handle in place (same row count, same key) and returns
`false`, and the command handler then replies with the already-registered
wording. -/
theorem C8_add_master_manager_upsert (cfg : BotConfig) (st : Store) (tid : Int)
    (full_name username : Option String) (added_by : Option Int)
    (admin_id : Int) (argid : String) (restArgs : List String) (now : String) :
    (mmFind st tid = none →
      (add_master_manager st tid full_name username added_by now).snd = true ∧
      (add_master_manager st tid full_name username added_by now).fst.master_managers =
        st.master_managers ++
          [{ telegram_id := tid, full_name := full_name, username := username,
             added_by := added_by, created_at := now }]) ∧
    (∀ r, mmFind st tid = some r →
      (add_master_manager st tid full_name username added_by now).snd = false ∧
      (add_master_manager st tid full_name username added_by now).fst.master_managers.length =
        st.master_managers.length ∧
      mmFind (add_master_manager st tid full_name username added_by now).fst tid =
        some { r with full_name := full_name, username := username }) ∧
    (mmFind st tid ≠ none → cfg.admin_ids.contains admin_id = true →
      pyInt? argid = some tid →
      (handle_add_master_manager cfg st admin_id (argid :: restArgs) now).replies =
        [toString tid ++ " allaqachon ro\x27yxatdan o\x27tgan, ma\x27lumot yangilandi."] ∧
      (handle_add_master_manager cfg st admin_id (argid :: restArgs) now).dms = []) := by
  have hp : ∀ r : MasterManagerRow,
      ((fun q => q.telegram_id == tid)
        (if r.telegram_id == tid then
          { r with full_name := full_name, username := username } else r)) =
      ((fun q => q.telegram_id == tid) r) := by
    intro r
    by_cases hr : r.telegram_id == tid <;> simp [hr]
  refine ⟨?_, ?_, ?_⟩
  · intro h
    unfold add_master_manager
    rw [h]
    exact ⟨rfl, rfl⟩
  · intro r h
    refine ⟨?_, ?_, ?_⟩
    · unfold add_master_manager
      rw [h]
    · unfold add_master_manager
      rw [h]
      simp
    · have hfind := h
      unfold mmFind at hfind
      have hkey := List.find?_some hfind
      unfold add_master_manager
      rw [h]
      simp only
      unfold mmFind
      rw [find?_map_key _ _ _ hp, hfind]
      simp [hkey]
      intro hcontra
      exact absurd (by simpa using hkey) hcontra
  · intro hne hadm hparse
    obtain ⟨r, hr⟩ := Option.ne_none_iff_exists.mp hne
    have hsnd : (add_master_manager st tid (restArgs.head?) none (some admin_id) now).snd = false := by
      unfold add_master_manager
      rw [hr.symm]
    unfold handle_add_master_manager
    have hmem : admin_id ∈ cfg.admin_ids := by
      simpa using hadm
    simp [hmem, hparse, hsnd]

/-- Witness for C8: re-adding master manager 1 to `wStoreAwaiting` reports
an update, adding the fresh id 5 reports a creation, and the handler uses
the already-registered wording. -/
theorem C8_add_master_manager_upsert_witness :
    (add_master_manager wStoreAwaiting 5 none none none "t1").snd = true ∧
    (add_master_manager wStoreAwaiting 1 (some "N") (some "u") (some 9) "t1").snd = false ∧
    (handle_add_master_manager { admin_ids := [9] } wStoreAwaiting 9 ["1"] "t1").replies =
      [toString (1 : Int) ++ " allaqachon ro\x27yxatdan o\x27tgan, ma\x27lumot yangilandi."] :=
  ⟨((C8_add_master_manager_upsert { admin_ids := [9] } wStoreAwaiting 5 none none none 9 "5" [] "t1").1
      (by decide)).1,
   ((C8_add_master_manager_upsert { admin_ids := [9] } wStoreAwaiting 1 (some "N") (some "u") (some 9) 9 "1" [] "t1").2.1
      { telegram_id := 1, full_name := none, username := none, added_by := none, created_at := "t0" }
      (by decide)).1,
   ((C8_add_master_manager_upsert { admin_ids := [9] } wStoreAwaiting 1 none none none 9 "1" [] "t1").2.2
      (by decide) (by decide) (by decide)).1⟩

/-- C1: assigning an operator who is already the sales manager of a
different group raises the `ValueError` domain error; the callback handler
reports it verbatim and the store — the operator's binding and status and
every groups row — is returned exactly as it was. -/
theorem C1_assign_conflict_rejected (st : Store) (X A B caller_id : Int)
    (r : SalesManagerRow) (username fullName chat_title : Option String)
    (dm : Bool) (now : String)
    (hfind : get_sales_manager st X = some r)
    (hbound : r.group_chat_id = some A)
    (hne : A ≠ B)
    (hmaster : is_master_manager st caller_id = true) :
    assign_sales_manager st X B username fullName now = .error .alreadyBoundElsewhere ∧
    (handle_assign_sales_manager st caller_id B X chat_title
        (.found false username fullName) dm now).store = st ∧
    (handle_assign_sales_manager st caller_id B X chat_title
        (.found false username fullName) dm now).reply =
      "User is already a sales manager in a different group." := by
  have h1 : assign_sales_manager st X B username fullName now = .error .alreadyBoundElsewhere := by
    unfold assign_sales_manager
    rw [hfind]
    simp [hbound, hne]
  refine ⟨h1, ?_, ?_⟩ <;>
    simp [handle_assign_sales_manager, hmaster, h1]

/-- Witness for C1: manager 7 is bound to group 100 in `wStoreAwaiting`;
binding it to group 200 fails and the handler leaves the store unchanged. -/
theorem C1_assign_conflict_rejected_witness :
    assign_sales_manager wStoreAwaiting 7 200 none none "t1" =
      .error .alreadyBoundElsewhere ∧
    (handle_assign_sales_manager wStoreAwaiting 1 200 7 none
        (.found false none none) true "t1").store = wStoreAwaiting :=
  ⟨(C1_assign_conflict_rejected wStoreAwaiting 7 100 200 1
      { telegram_id := 7, group_chat_id := some 100, username := some "sam",
        full_name := some "Sam", status := "awaiting_api",
        encrypted_api_key := some (tagCipher.enc "KEY"),
        encrypted_api_secret := some (tagCipher.enc "SEC"),
        created_at := "t0", updated_at := "t0" }
      none none none true "t1" (by decide) (by decide) (by decide) (by decide)).1,
   (C1_assign_conflict_rejected wStoreAwaiting 7 100 200 1
      { telegram_id := 7, group_chat_id := some 100, username := some "sam",
        full_name := some "Sam", status := "awaiting_api",
        encrypted_api_key := some (tagCipher.enc "KEY"),
        encrypted_api_secret := some (tagCipher.enc "SEC"),
        created_at := "t0", updated_at := "t0" }
      none none none true "t1" (by decide) (by decide) (by decide) (by decide)).2.1⟩

/-- C10: re-assigning an operator to the very group it is already bound to
succeeds, resets the status to `awaiting_api` (even from `active`) and
leaves both encrypted credential columns unchanged. -/
theorem C10_reassign_same_group (st : Store) (X B : Int) (r : SalesManagerRow)
    (username fullName : Option String) (now : String)
    (hfind : get_sales_manager st X = some r)
    (hsame : r.group_chat_id = some B)
    (hnodup : ∀ q ∈ st.sales_managers, q.telegram_id ≠ X → q.group_chat_id ≠ some B) :
    ∃ st1, assign_sales_manager st X B username fullName now = .ok st1 ∧
      ∃ r1, get_sales_manager st1 X = some r1 ∧
        r1.status = "awaiting_api" ∧
        r1.group_chat_id = some B ∧
        r1.encrypted_api_key = r.encrypted_api_key ∧
        r1.encrypted_api_secret = r.encrypted_api_secret := by
  have hany : (st.sales_managers.any fun q =>
      q.telegram_id != X && q.group_chat_id == some B) = false := by
    cases hA : (st.sales_managers.any fun q =>
        q.telegram_id != X && q.group_chat_id == some B) with
    | false => rfl
    | true =>
        obtain ⟨q, hq, hpq⟩ := List.any_eq_true.mp hA
        simp only [Bool.and_eq_true, bne_iff_ne, beq_iff_eq] at hpq
        exact absurd hpq.2 (hnodup q hq hpq.1)
  have hfind' := hfind
  unfold get_sales_manager at hfind'
  have hkey := List.find?_some hfind'
  unfold assign_sales_manager
  rw [hfind]
  simp only [hsame, bne_self_eq_false, Bool.false_eq_true, if_false, hany, ite_false]
  refine ⟨_, rfl, ?_⟩
  have hp : ∀ q : SalesManagerRow,
      ((fun a => a.telegram_id == X)
        (if q.telegram_id == X then
          { q with group_chat_id := some B, username := username,
                   full_name := fullName, status := "awaiting_api",
                   updated_at := now } else q)) =
      ((fun a => a.telegram_id == X) q) := by
    intro q
    by_cases hq : q.telegram_id == X <;> simp [hq]
  refine ⟨{ r with group_chat_id := some B, username := username,
                   full_name := fullName, status := "awaiting_api", updated_at := now },
          ?_, rfl, rfl, rfl, rfl⟩
  unfold get_sales_manager
  rw [find?_map_key _ _ _ hp, hfind']
  simp [hkey]
  intro hcontra
  exact absurd (by simpa using hkey) hcontra

/-- Witness for C10: re-assigning the `active` manager 7 to its own group
100 in `wStoreActive` succeeds and demotes it to `awaiting_api`. -/
theorem C10_reassign_same_group_witness :
    ∃ st1, assign_sales_manager wStoreActive 7 100 (some "sam2") (some "Sam") "t1" = .ok st1 ∧
      ∃ r1, get_sales_manager st1 7 = some r1 ∧
        r1.status = "awaiting_api" ∧
        r1.group_chat_id = some 100 ∧
        r1.encrypted_api_key = some (tagCipher.enc "KEY") ∧
        r1.encrypted_api_secret = some (tagCipher.enc "SEC") :=
  C10_reassign_same_group wStoreActive 7 100
    { telegram_id := 7, group_chat_id := some 100, username := some "sam",
      full_name := some "Sam", status := "active",
      encrypted_api_key := some (tagCipher.enc "KEY"),
      encrypted_api_secret := some (tagCipher.enc "SEC"),
      created_at := "t0", updated_at := "t0" }
    (some "sam2") (some "Sam") "t1" (by decide) (by decide) (by decide)

/-- C7: decrypting what was encrypted returns the original plaintext, and
storing a credential pair for a bound manager makes both
`get_decrypted_credentials` and `get_group_credentials` return exactly the
submitted plaintext pair. -/
theorem C7_credentials_roundtrip (c : Cipher) (st : Store) (X g : Int)
    (r : SalesManagerRow) (grow : GroupRow) (key secret status now : String)
    (hr : get_sales_manager st X = some r)
    (hg : groupFind st g = some grow)
    (hbind : grow.sales_manager_id = some X) :
    c.dec (c.enc key) = key ∧
    c.dec (c.enc secret) = secret ∧
    get_decrypted_credentials c
        (store_sales_manager_credentials c st X key secret status now) X =
      some (key, secret) ∧
    get_group_credentials c
        (store_sales_manager_credentials c st X key secret status now) g =
      some (X, key, secret, status) := by
  have hr' := hr
  unfold get_sales_manager at hr'
  have hkey := List.find?_some hr'
  have hx : r.telegram_id = X := by simpa using hkey
  have hp : ∀ q : SalesManagerRow,
      ((fun a => a.telegram_id == X)
        (if q.telegram_id == X then
          { q with encrypted_api_key := some (c.enc key),
                   encrypted_api_secret := some (c.enc secret),
                   status := status, updated_at := now } else q)) =
      ((fun a => a.telegram_id == X) q) := by
    intro q
    by_cases hq : q.telegram_id == X <;> simp [hq]
  have hfound : get_sales_manager
      (store_sales_manager_credentials c st X key secret status now) X =
      some { r with encrypted_api_key := some (c.enc key),
                    encrypted_api_secret := some (c.enc secret),
                    status := status, updated_at := now } := by
    unfold get_sales_manager store_sales_manager_credentials
    rw [find?_map_key _ _ _ hp, hr']
    simp [hkey]
    intro hcontra
    exact absurd (by simpa using hkey) hcontra
  have htr : colTruthy (some (c.enc key)) = true := by
    simp [colTruthy, c.enc_ne key]
  have hts : colTruthy (some (c.enc secret)) = true := by
    simp [colTruthy, c.enc_ne secret]
  refine ⟨c.dec_enc key, c.dec_enc secret, ?_, ?_⟩
  · unfold get_decrypted_credentials
    rw [hfound]
    simp [htr, hts, c.dec_enc]
  · unfold get_group_credentials get_sales_manager_for_group
    have hgroups : (store_sales_manager_credentials c st X key secret status now).groups =
        st.groups := rfl
    unfold groupFind
    rw [hgroups]
    unfold groupFind at hg
    rw [hg]
    simp [hbind, hfound, htr, hts, c.dec_enc, hx]

/-- Witness for C7: storing fresh plaintext for manager 7 of group 100 in
`wStoreActive` and reading it back through both getters. -/
theorem C7_credentials_roundtrip_witness :
    get_decrypted_credentials tagCipher
        (store_sales_manager_credentials tagCipher wStoreActive 7 "NEWKEY" "NEWSEC" "active" "t1") 7 =
      some ("NEWKEY", "NEWSEC") ∧
    get_group_credentials tagCipher
        (store_sales_manager_credentials tagCipher wStoreActive 7 "NEWKEY" "NEWSEC" "active" "t1") 100 =
      some (7, "NEWKEY", "NEWSEC", "active") :=
  ⟨(C7_credentials_roundtrip tagCipher wStoreActive 7 100
      { telegram_id := 7, group_chat_id := some 100, username := some "sam",
        full_name := some "Sam", status := "active",
        encrypted_api_key := some (tagCipher.enc "KEY"),
        encrypted_api_secret := some (tagCipher.enc "SEC"),
        created_at := "t0", updated_at := "t0" }
      { chat_id := 100, title := some "G", sales_master_manager_id := some 1,
        sales_manager_id := some 7, created_at := "t0", updated_at := some "t0" }
      "NEWKEY" "NEWSEC" "active" "t1" (by decide) (by decide) (by decide)).2.2.1,
   (C7_credentials_roundtrip tagCipher wStoreActive 7 100
      { telegram_id := 7, group_chat_id := some 100, username := some "sam",
        full_name := some "Sam", status := "active",
        encrypted_api_key := some (tagCipher.enc "KEY"),
        encrypted_api_secret := some (tagCipher.enc "SEC"),
        created_at := "t0", updated_at := "t0" }
      { chat_id := 100, title := some "G", sales_master_manager_id := some 1,
        sales_manager_id := some 7, created_at := "t0", updated_at := some "t0" }
      "NEWKEY" "NEWSEC" "active" "t1" (by decide) (by decide) (by decide)).2.2.2⟩

/-- Inversion of `get_group_credentials`: a `some` result comes from a
resolved manager row with truthy credential columns, and carries that
row's id and status. -/
theorem get_group_credentials_inv (c : Cipher) (st : Store) (chat_id : Int)
    (mid : Int) (k s stat : String)
    (hcr : get_group_credentials c st chat_id = some (mid, k, s, stat)) :
    ∃ m, get_sales_manager_for_group st chat_id = some m ∧ stat = m.status ∧
      mid = m.telegram_id ∧
      colTruthy m.encrypted_api_key = true ∧ colTruthy m.encrypted_api_secret = true := by
  unfold get_group_credentials at hcr
  split at hcr
  · exact absurd hcr (by simp)
  · rename_i m heq
    split at hcr
    · rename_i hcond
      split at hcr
      · rename_i kk ss hek hes
        simp only [Option.some.injEq, Prod.mk.injEq] at hcr
        refine ⟨m, heq, ?_, ?_, ?_, ?_⟩
        · exact hcr.2.2.2.symm
        · exact hcr.1.symm
        · exact (Bool.and_eq_true _ _ |>.mp hcond).1
        · exact (Bool.and_eq_true _ _ |>.mp hcond).2
      · exact absurd hcr (by simp)
    · exact absurd hcr (by simp)

/-- C4: when the invoking group chat has no resolvable sales manager, or
its manager has no stored credentials, or the manager's status is not
`active`, the start-order command refuses: the store is untouched, the
session stays `Idle`, the prior draft slot is unchanged (no draft is
created) and a refusal message is sent. -/
theorem C4_order_start_refusal (c : Cipher) (st : Store) (chat_id user_id : Int)
    (requester_name : String) (prior : Option OrderDraft)
    (h : get_sales_manager_for_group st chat_id = none
      ∨ (∃ m, get_sales_manager_for_group st chat_id = some m ∧
          (colTruthy m.encrypted_api_key = false ∨ colTruthy m.encrypted_api_secret = false))
      ∨ (∃ m, get_sales_manager_for_group st chat_id = some m ∧ m.status ≠ "active")) :
    (handle_order_start c st true chat_id user_id requester_name prior).store = st ∧
    (handle_order_start c st true chat_id user_id requester_name prior).state = .idle ∧
    (handle_order_start c st true chat_id user_id requester_name prior).draft = prior ∧
    (handle_order_start c st true chat_id user_id requester_name prior).replies ≠ [] := by
  cases hcase : get_group_credentials c st chat_id with
  | none =>
      unfold handle_order_start
      rw [hcase]
      exact ⟨rfl, rfl, rfl, by simp⟩
  | some quad =>
      obtain ⟨mid, k, s, stat⟩ := quad
      obtain ⟨m, hm, hstat, hmid, htk, hts⟩ := get_group_credentials_inv c st chat_id mid k s stat hcase
      have hne : stat ≠ "active" := by
        rcases h with h0 | ⟨m2, hm2, hfalsy⟩ | ⟨m2, hm2, hst2⟩
        · rw [h0] at hm
          exact absurd hm (by simp)
        · have hmm : m2 = m := by
            rw [hm2] at hm
            exact Option.some.inj hm
          subst hmm
          rcases hfalsy with hf | hf
          · rw [htk] at hf
            exact absurd hf (by simp)
          · rw [hts] at hf
            exact absurd hf (by simp)
        · have hmm : m2 = m := by
            rw [hm2] at hm
            exact Option.some.inj hm
          subst hmm
          rw [hstat]
          exact hst2
      unfold handle_order_start
      rw [hcase]
      simp only [Bool.not_true, if_false]
      rw [if_pos (bne_iff_ne.mpr hne)]
      exact ⟨rfl, rfl, rfl, by simp⟩

/-- Witness for C4: in `wStoreAwaiting` the bound manager's status is
`awaiting_api`, so start-order refuses without mutating anything. -/
theorem C4_order_start_refusal_witness :
    (handle_order_start tagCipher wStoreAwaiting true 100 5 "User" none).store = wStoreAwaiting ∧
    (handle_order_start tagCipher wStoreAwaiting true 100 5 "User" none).state = .idle ∧
    (handle_order_start tagCipher wStoreAwaiting true 100 5 "User" none).draft = none :=
  ⟨(C4_order_start_refusal tagCipher wStoreAwaiting 100 5 "User" none
      (Or.inr (Or.inr ⟨{ telegram_id := 7, group_chat_id := some 100,
                         username := some "sam", full_name := some "Sam",
                         status := "awaiting_api",
                         encrypted_api_key := some (tagCipher.enc "KEY"),
                         encrypted_api_secret := some (tagCipher.enc "SEC"),
                         created_at := "t0", updated_at := "t0" },
        by decide, by decide⟩))).1,
   (C4_order_start_refusal tagCipher wStoreAwaiting 100 5 "User" none
      (Or.inr (Or.inr ⟨{ telegram_id := 7, group_chat_id := some 100,
                         username := some "sam", full_name := some "Sam",
                         status := "awaiting_api",
                         encrypted_api_key := some (tagCipher.enc "KEY"),
                         encrypted_api_secret := some (tagCipher.enc "SEC"),
                         created_at := "t0", updated_at := "t0" },
        by decide, by decide⟩))).2.1,
   (C4_order_start_refusal tagCipher wStoreAwaiting 100 5 "User" none
      (Or.inr (Or.inr ⟨{ telegram_id := 7, group_chat_id := some 100,
                         username := some "sam", full_name := some "Sam",
                         status := "awaiting_api",
                         encrypted_api_key := some (tagCipher.enc "KEY"),
                         encrypted_api_secret := some (tagCipher.enc "SEC"),
                         created_at := "t0", updated_at := "t0" },
        by decide, by decide⟩))).2.2.1⟩

/-- C3: at the final unit step the engine re-resolves the group's
credentials; when the manager is unresolved or not `active` it sends a
message, discards the draft, and makes no external call and no store
write. Otherwise a completed flow (photo skipped, phone, notes, quantity,
unit) with a succeeding lead creation appends exactly one order-request
row at status `created`, ends in `Idle` with no draft, issues exactly the
one external call, and leaves no staged temp file. -/
theorem C3_submit_step (c : Cipher) (os : OrderSettings) (erp : ErpOracle)
    (st : Store) (now : String) :
    (∀ (d : OrderDraft) (text : String),
      (get_group_credentials c st d.chat_id = none ∨
        (∀ mid k s stat, get_group_credentials c st d.chat_id = some (mid, k, s, stat) →
          stat ≠ "active")) →
      (handle_order_unit c os erp st (some d) text now).store = st ∧
      (handle_order_unit c os erp st (some d) text now).erpCalls = [] ∧
      (handle_order_unit c os erp st (some d) text now).draft = none ∧
      (handle_order_unit c os erp st (some d) text now).state = .idle ∧
      (handle_order_unit c os erp st (some d) text now).replies ≠ []) ∧
    (∀ (chat_id user_id : Int) (requester_name phone notes qty unitText : String)
        (mid : Int) (k s : String) (leadResp : String → Option String → String → Json),
      get_group_credentials c st chat_id = some (mid, k, s, "active") →
      (∀ nm ph nt, erp.createLead k s nm ph nt = Except.ok (leadResp nm ph nt)) →
      ∃ row : OrderRequestRow,
        (runCompletedFlow c os erp st chat_id user_id requester_name phone notes qty
            unitText now).store.order_requests = st.order_requests ++ [row] ∧
        row.chat_id = chat_id ∧
        row.requester_id = user_id ∧
        row.sales_manager_id = some mid ∧
        row.status = "created" ∧
        (runCompletedFlow c os erp st chat_id user_id requester_name phone notes qty
            unitText now).state = .idle ∧
        (runCompletedFlow c os erp st chat_id user_id requester_name phone notes qty
            unitText now).draft = none ∧
        (runCompletedFlow c os erp st chat_id user_id requester_name phone notes qty
            unitText now).unlinked = [] ∧
        (runCompletedFlow c os erp st chat_id user_id requester_name phone notes qty
            unitText now).erpCalls.length = 1) := by
  constructor
  · intro d text h
    cases hcred : get_group_credentials c st d.chat_id with
    | none =>
        unfold handle_order_unit order_submit
        simp only []
        rw [show get_group_credentials c st
            ({ d with unit := some (pyStrip text) } : OrderDraft).chat_id = none from hcred]
        exact ⟨rfl, rfl, rfl, rfl, by simp⟩
    | some quad =>
        obtain ⟨mid, k, s, stat⟩ := quad
        have hstat : stat ≠ "active" := by
          rcases h with h0 | h1
          · rw [h0] at hcred
            exact absurd hcred (by simp)
          · exact h1 mid k s stat hcred
        unfold handle_order_unit order_submit
        simp only []
        rw [show get_group_credentials c st
            ({ d with unit := some (pyStrip text) } : OrderDraft).chat_id =
          some (mid, k, s, stat) from hcred]
        simp only []
        rw [if_pos (bne_iff_ne.mpr hstat)]
        exact ⟨rfl, rfl, rfl, rfl, by simp⟩
  · intro chat_id user_id requester_name phone notes qty unitText mid k s leadResp hcred hlead
    unfold runCompletedFlow handle_order_start handle_order_unit order_submit
    simp only [hcred, hlead, Bool.not_true, Bool.false_eq_true, if_false, ite_false,
      bne_self_eq_false, handle_order_skip_photo, handle_order_phone, handle_order_notes,
      handle_order_quantity, log_order_request, clear_order_draft]
    exact ⟨_, rfl, by simp⟩

/-- Witness for C3: the abort half on an empty store (no manager
resolvable), and the full submitted flow against the `active` manager of
`wStoreActive`. -/
theorem C3_submit_step_witness :
    (handle_order_unit tagCipher { attach_order_photo := true } wOracle emptyStore
        (some wDraftNoPhoto) "kg" "t1").store = emptyStore ∧
    ∃ row : OrderRequestRow,
      (runCompletedFlow tagCipher { attach_order_photo := true } wOracle wStoreActive
          100 5 "User" "998901234567" "test" "10" "kg" "t1").store.order_requests =
        wStoreActive.order_requests ++ [row] ∧
      row.chat_id = 100 ∧
      row.requester_id = 5 ∧
      row.sales_manager_id = some 7 ∧
      row.status = "created" ∧
      (runCompletedFlow tagCipher { attach_order_photo := true } wOracle wStoreActive
          100 5 "User" "998901234567" "test" "10" "kg" "t1").state = .idle ∧
      (runCompletedFlow tagCipher { attach_order_photo := true } wOracle wStoreActive
          100 5 "User" "998901234567" "test" "10" "kg" "t1").draft = none ∧
      (runCompletedFlow tagCipher { attach_order_photo := true } wOracle wStoreActive
          100 5 "User" "998901234567" "test" "10" "kg" "t1").unlinked = [] ∧
      (runCompletedFlow tagCipher { attach_order_photo := true } wOracle wStoreActive
          100 5 "User" "998901234567" "test" "10" "kg" "t1").erpCalls.length = 1 :=
  ⟨((C3_submit_step tagCipher { attach_order_photo := true } wOracle emptyStore "t1").1
      wDraftNoPhoto "kg" (Or.inl rfl)).1,
   (C3_submit_step tagCipher { attach_order_photo := true } wOracle wStoreActive "t1").2
      100 5 "User" "998901234567" "test" "10" "kg" 7 "KEY" "SEC" (fun _ _ _ => Json.null)
      (by decide) (fun _ _ _ => rfl)⟩

theorem touch_group_sales_managers (st : Store) (chat_id : Int) (title : Option String)
    (now : String) : (touch_group st chat_id title now).sales_managers = st.sales_managers := by
  unfold touch_group
  split <;> rfl

theorem assign_group_to_master_sales_managers (st : Store) (chat_id mid : Int)
    (now : String) :
    (assign_group_to_master st chat_id mid now).sales_managers = st.sales_managers := rfl

theorem upsert_group_member_sales_managers (st : Store) (chat_id tid : Int)
    (un fn mp : Option String) (now : String) :
    (upsert_group_member st chat_id tid un fn mp now).sales_managers = st.sales_managers := by
  unfold upsert_group_member
  split <;> rfl

theorem add_master_manager_sales_managers (st : Store) (tid : Int)
    (fn un : Option String) (ab : Option Int) (now : String) :
    (add_master_manager st tid fn un ab now).fst.sales_managers = st.sales_managers := by
  unfold add_master_manager
  split <;> rfl

theorem handle_add_master_manager_sales_managers (cfg : BotConfig) (st : Store)
    (uid : Int) (args : List String) (now : String) :
    (handle_add_master_manager cfg st uid args now).store.sales_managers =
      st.sales_managers := by
  unfold handle_add_master_manager
  split
  · rfl
  · split
    · rfl
    · split
      · rfl
      · dsimp only
        split <;> exact add_master_manager_sales_managers _ _ _ _ _ _

theorem handle_remove_master_manager_sales_managers (cfg : BotConfig) (st : Store)
    (uid : Int) (args : List String) :
    (handle_remove_master_manager cfg st uid args).store.sales_managers =
      st.sales_managers := by
  unfold handle_remove_master_manager
  split
  · rfl
  · split
    · rfl
    · split <;> rfl

theorem handle_list_group_users_sales_managers (st : Store) (chat_id : Int)
    (title : Option String) (uid : Int) (isG : Bool) (now : String) :
    (handle_list_group_users st chat_id title uid isG now).sales_managers =
      st.sales_managers := by
  unfold handle_list_group_users
  split
  · rfl
  · split
    · rfl
    · rw [assign_group_to_master_sales_managers, touch_group_sales_managers]

theorem handle_order_start_store (c : Cipher) (st : Store) (isG : Bool)
    (chat_id uid : Int) (name : String) (prior : Option OrderDraft) :
    (handle_order_start c st isG chat_id uid name prior).store = st := by
  unfold handle_order_start
  split
  · rfl
  · split
    · rfl
    · split <;> rfl

theorem handle_order_unit_sales_managers (c : Cipher) (os : OrderSettings)
    (erp : ErpOracle) (st : Store) (draft : Option OrderDraft) (text now : String) :
    (handle_order_unit c os erp st draft text now).store.sales_managers =
      st.sales_managers := by
  unfold handle_order_unit order_submit
  split
  · rfl
  · split
    · rfl
    · split
      · rfl
      · split <;> rfl

theorem handle_group_activity_sales_managers (st : Store) (chat_id : Int)
    (title : Option String) (uid : Int) (isBot : Bool) (un fn mt : Option String)
    (now : String) :
    (handle_group_activity st chat_id title uid isBot un fn mt now).sales_managers =
      st.sales_managers := by
  unfold handle_group_activity
  split
  · rfl
  · rw [upsert_group_member_sales_managers, touch_group_sales_managers]

theorem managerStatus_congr {st1 st2 : Store}
    (h : st1.sales_managers = st2.sales_managers) (X : Int) :
    managerStatus st1 X = managerStatus st2 X := by
  unfold managerStatus get_sales_manager
  rw [h]

/-- The credential-storing write makes a manager `active` only when it was
already `active` or the write targeted that manager with status `active`. -/
theorem managerStatus_store_creds (c : Cipher) (st : Store) (uid : Int)
    (key secret status now : String) (X : Int)
    (h : managerStatus (store_sales_manager_credentials c st uid key secret status now) X =
      some "active") :
    managerStatus st X = some "active" ∨ (X = uid ∧ status = "active") := by
  have hp : ∀ q : SalesManagerRow,
      ((fun a => a.telegram_id == X)
        (if q.telegram_id == uid then
          { q with encrypted_api_key := some (c.enc key),
                   encrypted_api_secret := some (c.enc secret),
                   status := status, updated_at := now } else q)) =
      ((fun a => a.telegram_id == X) q) := by
    intro q
    by_cases hq : q.telegram_id == uid <;> simp [hq]
  unfold managerStatus get_sales_manager store_sales_manager_credentials at h
  rw [find?_map_key _ _ _ hp] at h
  unfold managerStatus get_sales_manager
  cases hf : st.sales_managers.find? (fun a => a.telegram_id == X) with
  | none =>
      rw [hf] at h
      exact absurd h (by simp)
  | some r =>
      rw [hf] at h
      have hx : r.telegram_id = X := by simpa using List.find?_some hf
      by_cases hu : r.telegram_id = uid
      · right
        simp [hu] at h
        exact ⟨hx.symm.trans hu, h⟩
      · left
        simp [hu] at h
        simpa using h

/-- A successful `assign_sales_manager` makes a manager `active` for no
operator: any operator `active` afterwards was `active` before. -/
theorem managerStatus_assign_ok (st st1 : Store) (tid gcid : Int)
    (un fn : Option String) (now : String) (X : Int)
    (hok : assign_sales_manager st tid gcid un fn now = .ok st1)
    (h : managerStatus st1 X = some "active") :
    managerStatus st X = some "active" := by
  have hp : ∀ q : SalesManagerRow,
      ((fun a => a.telegram_id == X)
        (if q.telegram_id == tid then
          { q with group_chat_id := some gcid, username := un,
                   full_name := fn, status := "awaiting_api",
                   updated_at := now } else q)) =
      ((fun a => a.telegram_id == X) q) := by
    intro q
    by_cases hq : q.telegram_id == tid <;> simp [hq]
  unfold assign_sales_manager at hok
  unfold managerStatus get_sales_manager at h ⊢
  split at hok
  · split at hok
    · exact absurd hok (by simp)
    · split at hok
      · exact absurd hok (by simp)
      · rw [← Except.ok.inj hok] at h
        rw [find?_map_key _ _ _ hp] at h
        cases hf : st.sales_managers.find? (fun a => a.telegram_id == X) with
        | none =>
            rw [hf] at h
            exact absurd h (by simp)
        | some r =>
            rw [hf] at h
            by_cases hu : r.telegram_id = tid
            · simp [hu] at h
            · simp [hu] at h
              simpa using h
  · split at hok
    · exact absurd hok (by simp)
    · rw [← Except.ok.inj hok] at h
      rw [List.find?_append] at h
      cases hf : st.sales_managers.find? (fun a => a.telegram_id == X) with
      | none =>
          rw [hf] at h
          simp only [Option.none_or] at h
          by_cases hx : ((tid : Int) == X)
          · simp [List.find?, hx] at h
          · simp [List.find?, hx] at h
      | some r =>
          rw [hf] at h
          simpa using h

/-- Store outcome of the assignment callback: either the store is
untouched, or a successful `assign_sales_manager` ran and the group was
touched afterwards. -/
theorem handle_assign_store_cases (st : Store) (caller chat member : Int)
    (title : Option String) (lookup : MemberLookup) (dm : Bool) (now : String) :
    (handle_assign_sales_manager st caller chat member title lookup dm now).store = st ∨
    ∃ un fn st1, assign_sales_manager st member chat un fn now = .ok st1 ∧
      (handle_assign_sales_manager st caller chat member title lookup dm now).store =
        touch_group st1 chat title now := by
  unfold handle_assign_sales_manager
  split
  · left; rfl
  · split
    · left; rfl
    · left; rfl
    · rename_i un fn
      split
      · left; rfl
      · left; rfl
      · rename_i st1 heq
        right
        exact ⟨un, fn, st1, heq, rfl⟩

/-- Store outcome of `/set_api`: either the store is untouched, or the
row of the issuing (already assigned) manager is overwritten with the
stripped pair at status `active` exactly when validation succeeded. -/
theorem handle_set_api_store_cases (c : Cipher) (erp : ErpOracle) (st : Store)
    (isP : Bool) (uid : Int) (args : List String) (disp : String) (now : String) :
    (handle_set_api_credentials c erp st isP uid args disp now).store = st ∨
    ∃ a0 a1 rest manager, args = a0 :: a1 :: rest ∧
      get_sales_manager st uid = some manager ∧
      (handle_set_api_credentials c erp st isP uid args disp now).store =
        store_sales_manager_credentials c st uid (pyStrip a0) (pyStrip a1)
          (if (erp.validate (pyStrip a0) (pyStrip a1)).fst then "active" else "awaiting_api")
          now := by
  unfold handle_set_api_credentials
  split
  · left; rfl
  · split
    · rename_i a0 a1 rest
      split
      · left; rfl
      · rename_i manager heq
        right
        exact ⟨a0, a1, rest, manager, rfl, heq, rfl⟩
    · left; rfl

/-- C5: across every dispatched event, a sales manager's status becomes
`active` only when it already was `active`, or the event was that
operator's own `/set_api` submission whose key/secret pair the external
validation call accepted; every other transition leaves the status or
resets it to `awaiting_api`. -/
theorem C5_active_only_after_validation (cfg : BotConfig) (os : OrderSettings)
    (erp : ErpOracle) (c : Cipher) (now : String) (ev : BotEvent) (st : Store)
    (X : Int)
    (hactive : managerStatus (stepStore cfg os erp c now ev st) X = some "active") :
    managerStatus st X = some "active" ∨
    ∃ isPrivate args disp, ev = BotEvent.setApi X isPrivate args disp ∧
      SetApiActivation erp args := by
  cases ev with
  | startGroup chat_id title =>
      left
      rw [← managerStatus_congr (touch_group_sales_managers st chat_id title now) X]
      exact hactive
  | addMaster uid args =>
      left
      rw [← managerStatus_congr (handle_add_master_manager_sales_managers cfg st uid args now) X]
      exact hactive
  | removeMaster uid args =>
      left
      rw [← managerStatus_congr (handle_remove_master_manager_sales_managers cfg st uid args) X]
      exact hactive
  | listUsers chat_id title uid isG =>
      left
      rw [← managerStatus_congr (handle_list_group_users_sales_managers st chat_id title uid isG now) X]
      exact hactive
  | assignSm caller chat member title lookup dm =>
      have hactive2 : managerStatus
          ((handle_assign_sales_manager st caller chat member title lookup dm now).store) X =
          some "active" := hactive
      rcases handle_assign_store_cases st caller chat member title lookup dm now with
        h | ⟨un, fn, st1, hok, hstore⟩
      · left
        rw [h] at hactive2
        exact hactive2
      · left
        rw [hstore] at hactive2
        rw [managerStatus_congr (touch_group_sales_managers st1 chat title now) X] at hactive2
        exact managerStatus_assign_ok st st1 member chat un fn now X hok hactive2
  | setApi uid isP args disp =>
      have hactive2 : managerStatus
          ((handle_set_api_credentials c erp st isP uid args disp now).store) X =
          some "active" := hactive
      rcases handle_set_api_store_cases c erp st isP uid args disp now with
        h | ⟨a0, a1, rest, manager, hargs, hmgr, hstore⟩
      · left
        rw [h] at hactive2
        exact hactive2
      · rw [hstore] at hactive2
        rcases managerStatus_store_creds c st uid (pyStrip a0) (pyStrip a1) _ now X hactive2 with
          h2 | ⟨hXu, hst⟩
        · left
          exact h2
        · right
          by_cases hv : (erp.validate (pyStrip a0) (pyStrip a1)).fst = true
          · exact ⟨isP, args, disp, by rw [hXu], ⟨a0, a1, rest, hargs, hv⟩⟩
          · rw [if_neg hv] at hst
            exact absurd hst (by simp)
  | orderStart isG chat_id uid name prior =>
      have hactive2 : managerStatus
          ((handle_order_start c st isG chat_id uid name prior).store) X =
          some "active" := hactive
      left
      rw [handle_order_start_store] at hactive2
      exact hactive2
  | orderUnit draft text =>
      left
      rw [← managerStatus_congr (handle_order_unit_sales_managers c os erp st draft text now) X]
      exact hactive
  | groupActivity chat_id title uid isBot un fn mt =>
      left
      rw [← managerStatus_congr (handle_group_activity_sales_managers st chat_id title uid isBot un fn mt now) X]
      exact hactive

/-- Witness for C5 at a concrete event: the `awaiting_api` manager 7 of
`wStoreAwaiting` becomes `active` through a `/set_api` submission that the
oracle validates, and the theorem pins that event as the only explanation. -/
theorem C5_active_only_after_validation_witness :
    managerStatus wStoreAwaiting 7 = some "active" ∨
    ∃ isPrivate args disp,
      BotEvent.setApi 7 true ["KEY", "SEC"] "Sam" = BotEvent.setApi 7 isPrivate args disp ∧
      SetApiActivation wOracle args :=
  C5_active_only_after_validation { admin_ids := [] } { attach_order_photo := true }
    wOracle tagCipher "t1" (BotEvent.setApi 7 true ["KEY", "SEC"] "Sam") wStoreAwaiting 7
    (by decide)

theorem key_unique_of_pairwise {α : Type} {κ : Type} (l : List α) (key : α → κ)
    (hpw : l.Pairwise (fun a b => key a ≠ key b)) :
    ∀ a ∈ l, ∀ b ∈ l, key a = key b → a = b := by
  intro a ha b hb hk
  by_contra hne
  have hsym : Symmetric (fun a b => key a ≠ key b) := by
    intro x y hxy e
    exact hxy e.symm
  exact List.Pairwise.forall hsym hpw ha hb hne hk

theorem storeInv_congr (st st' : Store)
    (hg : st'.groups = st.groups)
    (hs : st'.sales_managers = st.sales_managers)
    (h : StoreInv st) : StoreInv st' := by
  refine ⟨?_, ?_, ?_, ?_⟩
  · rw [hg]; exact h.groupsPK
  · rw [hs]; exact h.smPK
  · rw [hs]; exact h.smGroupUnique
  · rw [hg, hs]; exact h.consistent

theorem storeInv_of_groups_map (st st' : Store) (f : GroupRow → GroupRow)
    (hg : st'.groups = st.groups.map f)
    (hs : st'.sales_managers = st.sales_managers)
    (hchat : ∀ g, (f g).chat_id = g.chat_id)
    (hsm : ∀ g, (f g).sales_manager_id = g.sales_manager_id)
    (h : StoreInv st) : StoreInv st' := by
  refine ⟨?_, ?_, ?_, ?_⟩
  · rw [hg, List.pairwise_map]
    exact h.groupsPK.imp (fun hab => by rw [hchat, hchat]; exact hab)
  · rw [hs]; exact h.smPK
  · rw [hs]; exact h.smGroupUnique
  · rw [hg, hs]
    intro g' hg' m hm
    obtain ⟨g, hgmem, rfl⟩ := List.mem_map.mp hg'
    rw [hsm] at hm
    obtain ⟨r, hr, hrt, hrg⟩ := h.consistent g hgmem m hm
    exact ⟨r, hr, hrt, by rw [hchat]; exact hrg⟩

theorem storeInv_groups_insert (st : Store) (g0 : GroupRow)
    (hfind : st.groups.find? (fun g => g.chat_id == g0.chat_id) = none)
    (hsm0 : g0.sales_manager_id = none)
    (h : StoreInv st) : StoreInv { st with groups := st.groups ++ [g0] } := by
  refine ⟨?_, h.smPK, h.smGroupUnique, ?_⟩
  · rw [List.pairwise_append]
    refine ⟨h.groupsPK, by simp, ?_⟩
    intro a ha b hb
    have hb0 : b = g0 := by simpa using hb
    subst hb0
    have := List.find?_eq_none.mp hfind a ha
    simpa using this
  · intro g hgmem m hm
    rcases List.mem_append.mp hgmem with hgl | hg0
    · exact h.consistent g hgl m hm
    · have : g = g0 := by simpa using hg0
      subst this
      rw [hsm0] at hm
      exact absurd hm (by simp)

theorem storeInv_of_sm_map (st st' : Store) (f : SalesManagerRow → SalesManagerRow)
    (hs : st'.sales_managers = st.sales_managers.map f)
    (hg : st'.groups = st.groups)
    (htid : ∀ r, (f r).telegram_id = r.telegram_id)
    (hgc : ∀ r, (f r).group_chat_id = r.group_chat_id)
    (h : StoreInv st) : StoreInv st' := by
  refine ⟨?_, ?_, ?_, ?_⟩
  · rw [hg]; exact h.groupsPK
  · rw [hs, List.pairwise_map]
    exact h.smPK.imp (fun hab => by rw [htid, htid]; exact hab)
  · rw [hs, List.pairwise_map]
    exact h.smGroupUnique.imp (fun hab => by rw [hgc, hgc]; exact hab)
  · rw [hg, hs]
    intro g hgmem m hm
    obtain ⟨r, hr, hrt, hrg⟩ := h.consistent g hgmem m hm
    refine ⟨f r, List.mem_map.mpr ⟨r, hr, rfl⟩, ?_, ?_⟩
    · rw [htid]; exact hrt
    · rw [hgc]; exact hrg

theorem storeInv_clear (st : Store) (X : Int) (h : StoreInv st) :
    StoreInv (clear_sales_manager st X) := by
  refine ⟨?_, ?_, ?_, ?_⟩
  · show (st.groups.map _).Pairwise _
    rw [List.pairwise_map]
    refine h.groupsPK.imp (fun hab => ?_)
    split <;> split <;> simpa using hab
  · exact h.smPK.sublist (List.filter_sublist _)
  · exact h.smGroupUnique.sublist (List.filter_sublist _)
  · intro g' hg' m hm
    obtain ⟨g, hgmem, rfl⟩ := List.mem_map.mp hg'
    by_cases hcond : (g.sales_manager_id == some X) = true
    · rw [if_pos hcond] at hm
      exact absurd hm (by simp)
    · rw [if_neg hcond] at hm
      have hmx : m ≠ X := by
        intro he
        subst he
        exact hcond (by simpa using hm)
      obtain ⟨r, hr, hrt, hrg⟩ := h.consistent g hgmem m hm
      refine ⟨r, ?_, hrt, ?_⟩
      · refine List.mem_filter.mpr ⟨hr, ?_⟩
        simpa using hrt ▸ hmx
      · show r.group_chat_id = some (if (g.sales_manager_id == some X) = true then _ else g).chat_id
        rw [if_neg hcond]
        exact hrg

theorem pairwise_map_of_pairwise_forall {α β : Type} (l : List α) (f : α → β)
    (R : α → α → Prop) (S : β → β → Prop)
    (hl : l.Pairwise R)
    (hall : ∀ a ∈ l, ∀ b ∈ l, R a b → S (f a) (f b)) :
    (l.map f).Pairwise S := by
  induction l with
  | nil => simp
  | cons x xs ih =>
      rcases hl with _ | ⟨hx, hxs⟩
      simp only [List.map_cons, List.pairwise_cons]
      constructor
      · intro b hb
        obtain ⟨a, ha, rfl⟩ := List.mem_map.mp hb
        exact hall x (by simp) a (by simp [ha]) (hx a ha)
      · exact ih hxs (fun a ha b hb hr => hall a (by simp [ha]) b (by simp [hb]) hr)

theorem storeInv_assign (st st1 : Store) (tid gcid : Int) (un fn : Option String)
    (now : String)
    (hok : assign_sales_manager st tid gcid un fn now = .ok st1)
    (h : StoreInv st) : StoreInv st1 := by
  unfold assign_sales_manager at hok
  split at hok
  · rename_i existing hexist
    split at hok
    · exact absurd hok (by simp)
    · rename_i hbne
      split at hok
      · exact absurd hok (by simp)
      · rename_i hany
        have hbound : existing.group_chat_id = some gcid := by
          simpa using hbne
        have hno : ∀ r ∈ st.sales_managers, r.telegram_id ≠ tid →
            r.group_chat_id ≠ some gcid := by
          intro r hr ht hg
          apply hany
          rw [List.any_eq_true]
          exact ⟨r, hr, by simp [ht, hg]⟩
        have hmem_exist : existing ∈ st.sales_managers :=
          List.mem_of_find?_eq_some hexist
        have hkey : existing.telegram_id = tid := by
          simpa using List.find?_some hexist
        have hex_unique : ∀ r ∈ st.sales_managers, r.telegram_id = tid → r = existing := by
          intro r hr ht
          exact key_unique_of_pairwise _ (fun q => q.telegram_id) h.smPK r hr existing
            hmem_exist (by show r.telegram_id = existing.telegram_id; rw [ht, hkey])
        replace hok := Except.ok.inj hok
        subst hok
        refine ⟨?_, ?_, ?_, ?_⟩
        · show (st.groups.map _).Pairwise _
          rw [List.pairwise_map]
          refine h.groupsPK.imp (fun hab => ?_)
          split <;> split <;> simpa using hab
        · show (st.sales_managers.map _).Pairwise _
          rw [List.pairwise_map]
          refine h.smPK.imp (fun hab => ?_)
          split <;> split <;> simpa using hab
        · show (st.sales_managers.map _).Pairwise _
          refine pairwise_map_of_pairwise_forall _ _ _ _ (h.smPK.and h.smGroupUnique) ?_
          intro a ha b hb hr g hga hgb
          obtain ⟨hne_tid, hrel⟩ := hr
          by_cases hat : (a.telegram_id == tid) = true
          · by_cases hbt : (b.telegram_id == tid) = true
            · exact hne_tid (by
                have h1 : a.telegram_id = tid := by simpa using hat
                have h2 : b.telegram_id = tid := by simpa using hbt
                rw [h1, h2])
            · simp only [if_pos hat, if_neg hbt] at hga hgb
              have hgeq : g = gcid := by
                simp at hga
                exact hga.symm
              subst hgeq
              exact hno b hb (by simpa using hbt) hgb
          · by_cases hbt : (b.telegram_id == tid) = true
            · simp only [if_neg hat, if_pos hbt] at hga hgb
              have hgeq : g = gcid := by
                simp at hgb
                exact hgb.symm
              subst hgeq
              exact hno a ha (by simpa using hat) hga
            · simp only [if_neg hat, if_neg hbt] at hga hgb
              exact hrel g hga hgb
        · intro g' hg' m hm
          obtain ⟨g, hgmem, rfl⟩ := List.mem_map.mp hg'
          by_cases hgc : (g.chat_id == gcid) = true
          · simp only [if_pos hgc] at hm
            have hmtid : m = tid := by
              simp at hm
              exact hm.symm
            subst hmtid
            refine ⟨_, List.mem_map.mpr ⟨existing, hmem_exist, rfl⟩, ?_, ?_⟩
            · simp [hkey]
            · have hchat : g.chat_id = gcid := by simpa using hgc
              simp [hkey, hgc, hchat]
          · simp only [if_neg hgc] at hm
            obtain ⟨r, hr, hrt, hrg⟩ := h.consistent g hgmem m hm
            by_cases hrtid : (r.telegram_id == tid) = true
            · have hre : r = existing := hex_unique r hr (by simpa using hrtid)
              rw [hre, hbound] at hrg
              have : gcid = g.chat_id := by simpa using hrg
              exact absurd (by simp [this] : (g.chat_id == gcid) = true) hgc
            · refine ⟨_, List.mem_map.mpr ⟨r, hr, rfl⟩, ?_, ?_⟩
              · have hmne : ¬ m = tid := by
                  rw [← hrt]
                  simpa using hrtid
                simp [hrtid, hrt, hmne]
              · simp only [if_neg hrtid, if_neg hgc]
                exact hrg
  · rename_i hnone
    split at hok
    · exact absurd hok (by simp)
    · rename_i hany
      have hnotid : ∀ r ∈ st.sales_managers, r.telegram_id ≠ tid := by
        intro r hr
        have := List.find?_eq_none.mp hnone r hr
        simpa using this
      have hno2 : ∀ r ∈ st.sales_managers, r.group_chat_id ≠ some gcid := by
        intro r hr hg
        apply hany
        rw [List.any_eq_true]
        exact ⟨r, hr, by simp [hg]⟩
      replace hok := Except.ok.inj hok
      subst hok
      refine ⟨?_, ?_, ?_, ?_⟩
      · show (st.groups.map _).Pairwise _
        rw [List.pairwise_map]
        refine h.groupsPK.imp (fun hab => ?_)
        split <;> split <;> simpa using hab
      · rw [List.pairwise_append]
        refine ⟨h.smPK, by simp, ?_⟩
        intro a ha b hb
        have hb0 : b = { telegram_id := tid, group_chat_id := some gcid, username := un,
                         full_name := fn, status := "awaiting_api", encrypted_api_key := none,
                         encrypted_api_secret := none, created_at := now, updated_at := now } := by
          simpa using hb
        subst hb0
        simpa using hnotid a ha
      · rw [List.pairwise_append]
        refine ⟨h.smGroupUnique, by simp, ?_⟩
        intro a ha b hb
        have hb0 : b = { telegram_id := tid, group_chat_id := some gcid, username := un,
                         full_name := fn, status := "awaiting_api", encrypted_api_key := none,
                         encrypted_api_secret := none, created_at := now, updated_at := now } := by
          simpa using hb
        subst hb0
        intro g hga hgb
        have : g = gcid := by
          simp at hgb
          exact hgb.symm
        subst this
        exact hno2 a ha hga
      · intro g' hg' m hm
        obtain ⟨g, hgmem, rfl⟩ := List.mem_map.mp hg'
        by_cases hgc : (g.chat_id == gcid) = true
        · simp only [if_pos hgc] at hm
          have hmtid : m = tid := by
            simp at hm
            exact hm.symm
          refine ⟨{ telegram_id := tid, group_chat_id := some gcid, username := un,
                    full_name := fn, status := "awaiting_api", encrypted_api_key := none,
                    encrypted_api_secret := none, created_at := now, updated_at := now },
                  List.mem_append.mpr (Or.inr (by simp)), hmtid.symm, ?_⟩
          have hchat : g.chat_id = gcid := by simpa using hgc
          simp [hgc, hchat]
        · simp only [if_neg hgc] at hm
          obtain ⟨r, hr, hrt, hrg⟩ := h.consistent g hgmem m hm
          refine ⟨r, List.mem_append.mpr (Or.inl hr), hrt, ?_⟩
          simp [hgc]
          exact hrg

theorem storeInv_emptyStore : StoreInv emptyStore := by
  refine ⟨?_, ?_, ?_, ?_⟩ <;> simp [emptyStore]

theorem storeInv_applyOp (c : Cipher) (now : String) (op : StorageOp) (st : Store)
    (h : StoreInv st) : StoreInv (applyOp c now op st) := by
  cases op with
  | addMasterManager id fn un ab =>
      refine storeInv_congr st _ ?_ ?_ h
      · show (add_master_manager st id fn un ab now).fst.groups = st.groups
        unfold add_master_manager
        split <;> rfl
      · show (add_master_manager st id fn un ab now).fst.sales_managers = st.sales_managers
        unfold add_master_manager
        split <;> rfl
  | removeMasterManager id =>
      exact storeInv_of_groups_map st _
        (fun g => if g.sales_master_manager_id == some id then
          { g with sales_master_manager_id := none } else g)
        rfl rfl (fun g => by beta_reduce; split <;> rfl) (fun g => by beta_reduce; split <;> rfl) h
  | touchGroup chat_id title =>
      show StoreInv (touch_group st chat_id title now)
      unfold touch_group
      split
      · exact storeInv_of_groups_map st _
          (fun g => if g.chat_id == chat_id then
            { g with title := title.orElse (fun _ => g.title), updated_at := some now }
            else g)
          rfl rfl (fun g => by beta_reduce; split <;> rfl) (fun g => by beta_reduce; split <;> rfl) h
      · rename_i heq
        exact storeInv_groups_insert st _ heq rfl h
  | assignGroupToMaster chat_id mid =>
      exact storeInv_of_groups_map st _
        (fun g => if g.chat_id == chat_id then
          { g with sales_master_manager_id := some mid, updated_at := some now } else g)
        rfl rfl (fun g => by beta_reduce; split <;> rfl) (fun g => by beta_reduce; split <;> rfl) h
  | upsertGroupMember chat_id id un fn mp =>
      refine storeInv_congr st _ ?_ ?_ h
      · show (upsert_group_member st chat_id id un fn mp now).groups = st.groups
        unfold upsert_group_member
        split <;> rfl
      · show (upsert_group_member st chat_id id un fn mp now).sales_managers = st.sales_managers
        unfold upsert_group_member
        split <;> rfl
  | assignSalesManager id gcid un fn =>
      show StoreInv (match assign_sales_manager st id gcid un fn now with
        | .ok st1 => st1
        | .error _ => st)
      split
      · rename_i st1 heq
        exact storeInv_assign st st1 id gcid un fn now heq h
      · exact h
  | clearSalesManager id =>
      exact storeInv_clear st id h
  | storeCredentials id k s status =>
      exact storeInv_of_sm_map st _
        (fun r => if r.telegram_id == id then
          { r with encrypted_api_key := some (c.enc k),
                   encrypted_api_secret := some (c.enc s),
                   status := status, updated_at := now } else r)
        rfl rfl (fun r => by beta_reduce; split <;> rfl) (fun r => by beta_reduce; split <;> rfl) h
  | logOrderRequest chat_id rid payload smid status =>
      exact storeInv_congr st _ rfl rfl h
  | updateOrderStatus oid status =>
      exact storeInv_congr st _ rfl rfl h

theorem bindingOneToOne_of_storeInv (st : Store) (h : StoreInv st) :
    BindingOneToOne st := by
  constructor
  · intro r1 h1 r2 h2 g hg1 hg2
    by_contra hne
    have hsym : Symmetric (fun a b : SalesManagerRow =>
        ∀ g : Int, a.group_chat_id = some g → b.group_chat_id ≠ some g) := by
      intro x y hxy gg hyg hxg
      exact hxy gg hxg hyg
    exact List.Pairwise.forall hsym h.smGroupUnique h1 h2 hne g hg1 hg2
  · intro g1 h1 g2 h2 m hm1 hm2
    obtain ⟨r1, hr1, hrt1, hrg1⟩ := h.consistent g1 h1 m hm1
    obtain ⟨r2, hr2, hrt2, hrg2⟩ := h.consistent g2 h2 m hm2
    have hr12 : r1 = r2 := by
      refine key_unique_of_pairwise _ (fun q => q.telegram_id) h.smPK r1 hr1 r2 hr2 ?_
      show r1.telegram_id = r2.telegram_id
      rw [hrt1, hrt2]
    have hcheq : g1.chat_id = g2.chat_id := by
      rw [hr12] at hrg1
      exact Option.some.inj (hrg1.symm.trans hrg2)
    exact key_unique_of_pairwise _ (fun q => q.chat_id) h.groupsPK g1 h1 g2 h2 hcheq

/-- C2: in every store reachable from a fresh database by any sequence of
storage operations, the group-to-manager binding is one-to-one where
present: two manager rows bound to the same group coincide, and two group
rows bound to the same manager coincide. -/
theorem C2_binding_one_to_one (st : Store) (h : Reachable st) :
    BindingOneToOne st := by
  have hinv : StoreInv st := by
    induction h with
    | init => exact storeInv_emptyStore
    | step st c now op hr ih => exact storeInv_applyOp c now op st ih
  exact bindingOneToOne_of_storeInv st hinv

/-- Witness for C2 on a concrete reachable store: assigning manager 7 to
group 100 starting from the empty store. -/
theorem C2_binding_one_to_one_witness :
    BindingOneToOne (applyOp tagCipher "t0"
      (StorageOp.assignSalesManager 7 100 none none) emptyStore) :=
  C2_binding_one_to_one _
    (Reachable.step emptyStore tagCipher "t0"
      (StorageOp.assignSalesManager 7 100 none none) Reachable.init)
